import Mathlib

/-!
Shallow embedding of the WiiSynth "Ultimate Pluck Machine" audio core
(`Source/UltimatePluckEngine.h`, `Source/UltimatePluckProcessor.h`,
`Source/BasicOscillator.h`) and proofs about it.

Modelling conventions:
* C++ `float`/`double` values are modelled as exact rationals (`ℚ`);
  floating-point rounding is abstracted away.
* Transcendental library functions (`std::sin`, `std::cos`, `std::sqrt`,
  `std::exp`, `std::pow(2,·)`) and the numeric constants π, π/2, 2π are
  not rational; they are abstracted as an explicit bundle of function
  parameters (`RealFns`).  Every theorem below holds for an arbitrary
  bundle, i.e. no property proved here depends on the actual values of
  the transcendental functions.
* `juce::Random::nextFloat()` is modelled as an explicit stream
  `ℕ → ℚ` together with a cursor index threaded through the state.
* JUCE library components whose source is not part of this repository
  (`juce::ADSR`, `juce::dsp::StateVariableTPTFilter`) are abstracted as
  typeclass-style records of operations over an opaque state type.
* C++ integer truncation `(int)x` is `ctrunc`, C++ `%` on `int` is
  truncated remainder (`Int.tmod`) for the rare spots where the dividend
  may be negative.
-/

namespace Akane

/-- C++ `(int)x` cast: truncation toward zero. -/
def ctrunc (x : ℚ) : ℤ := if 0 ≤ x then ⌊x⌋ else ⌈x⌉

/-- C++ `std::fmod(x, 1.0)`: `x - trunc x`, sign follows the dividend. -/
def cppFmod1 (x : ℚ) : ℚ := x - ctrunc x

/-- `juce::jlimit` on integers: clamp `x` into `[lo, hi]`. -/
def jlimitI (lo hi x : ℤ) : ℤ := max lo (min hi x)

/-- `juce::jlimit` on rationals: clamp `x` into `[lo, hi]`. -/
def jlimitQ (lo hi x : ℚ) : ℚ := max lo (min hi x)

/-- Abstract stand-ins for the transcendental C library functions and
constants used by the engines.  `sin x` models `std::sin(x)`, `pow2 x`
models `std::pow(2, x)`, `twoPi`, `halfPi`, `pi` model the
`juce::MathConstants` values. -/
structure RealFns where
  sin : ℚ → ℚ
  cos : ℚ → ℚ
  sqrt : ℚ → ℚ
  exp : ℚ → ℚ
  pow2 : ℚ → ℚ
  pi : ℚ
  twoPi : ℚ
  halfPi : ℚ

/-- A trivial concrete `RealFns` bundle, used to instantiate theorems on
concrete inputs. -/
def F0 : RealFns :=
  { sin := fun _ => 0, cos := fun _ => 0, sqrt := fun _ => 0,
    exp := fun _ => 0, pow2 := fun _ => 0, pi := 0, twoPi := 0, halfPi := 0 }

/-! ## ModalResonator (Mutable-Instruments-Rings-style modal synthesis)

From `UltimatePluckEngine.h`, class `ModalResonator`. -/

inductive ResonatorModel
  | String
  | Membrane
  | Tube
  | Bell
deriving DecidableEq, Repr

/-- `ModalResonator::ResonatorParams`. -/
structure ResonatorParams where
  frequency : ℚ := 440
  brightness : ℚ := 1/2
  damping : ℚ := 1/2
  position : ℚ := 1/2
  structure_ : ℚ := 1/2
  model : ResonatorModel := .String

/-- One `ModalResonator::Mode`: a 2nd-order resonant filter. -/
structure ModeState where
  sampleRate : ℚ := 44100
  frequency : ℚ := 440
  decayTime : ℚ := 1
  brightness : ℚ := 1/2
  b0 : ℚ := 0
  b1 : ℚ := 0
  b2 : ℚ := 0
  a1 : ℚ := 0
  a2 : ℚ := 0
  z1 : ℚ := 0
  z2 : ℚ := 0
  out1 : ℚ := 0
  out2 : ℚ := 0

namespace ModeState

/-- `Mode::updateCoefficients`. -/
def updateCoefficients (F : RealFns) (m : ModeState) : ModeState :=
  let omega := F.twoPi * m.frequency / m.sampleRate
  let bandwidth := m.frequency / (10 + m.brightness * 90)
  let bw := F.twoPi * bandwidth / m.sampleRate
  let decay := F.exp (-(1 / (m.decayTime * m.sampleRate)))
  let r := decay
  { m with
    b0 := (1 - r * r) * F.sin bw
    b1 := 0
    b2 := 0
    a1 := -2 * r * F.cos omega
    a2 := r * r }

/-- `Mode::setSampleRate`. -/
def setSampleRate (m : ModeState) (sr : ℚ) : ModeState := { m with sampleRate := sr }

/-- `Mode::setFrequency`. -/
def setFrequency (F : RealFns) (m : ModeState) (freq : ℚ) : ModeState :=
  updateCoefficients F { m with frequency := freq }

/-- `Mode::setDecay`. -/
def setDecay (F : RealFns) (m : ModeState) (decay : ℚ) : ModeState :=
  updateCoefficients F { m with decayTime := decay }

/-- `Mode::setBrightness`. -/
def setBrightness (F : RealFns) (m : ModeState) (bright : ℚ) : ModeState :=
  updateCoefficients F { m with brightness := bright }

/-- `Mode::excite`. -/
def excite (m : ModeState) (amplitude : ℚ) : ModeState :=
  { m with z1 := m.z1 + amplitude }

/-- `Mode::process`: one filter step; returns (output, new state). -/
def process (m : ModeState) (input : ℚ) : ℚ × ModeState :=
  let output := m.b0 * input + m.b1 * m.z1 + m.b2 * m.z2 - m.a1 * m.out1 - m.a2 * m.out2
  (output, { m with z2 := m.z1, z1 := input, out2 := m.out1, out1 := output })

end ModeState

/-- The `bellRatios` table from `ModalResonator::updateModeFrequencies`. -/
def bellRatios : Fin 8 → ℚ :=
  ![1, 2.76, 5.4, 8.93, 13.34, 18.64, 24.8, 31.87]

/-- `ModalResonator` state: 8 modes plus parameters. -/
structure ModalState where
  modes : Fin 8 → ModeState := fun _ => {}
  params : ResonatorParams := {}
  currentModel : ResonatorModel := .String
  sampleRate : ℚ := 44100

namespace ModalState

/-- `ModalResonator::updateModeFrequencies`: recompute mode frequency,
decay and brightness for each of the 8 modes from the current params. -/
def updateModeFrequencies (F : RealFns) (s : ModalState) : ModalState :=
  let baseFreq := s.params.frequency
  let inharmonicity := s.params.structure_
  { s with
    modes := fun i =>
      let harmonic : ℚ := (i : ℕ) + 1
      let modeFreq : ℚ :=
        match s.currentModel with
        | .String => baseFreq * harmonic * (1 + inharmonicity * (2/100) * harmonic * harmonic)
        | .Membrane => baseFreq * F.sqrt harmonic * (1 + inharmonicity)
        | .Tube => baseFreq * (2 * harmonic - 1)
        | .Bell => baseFreq * bellRatios i * (1 + inharmonicity * (1/10))
      (((s.modes i).setFrequency F modeFreq).setDecay F
          (s.params.damping * 2)).setBrightness F s.params.brightness }

/-- `ModalResonator::setSampleRate`. -/
def setSampleRate (s : ModalState) (sr : ℚ) : ModalState :=
  { s with sampleRate := sr, modes := fun i => (s.modes i).setSampleRate sr }

/-- `ModalResonator::setResonatorModel`. -/
def setResonatorModel (F : RealFns) (s : ModalState) (model : ResonatorModel) : ModalState :=
  updateModeFrequencies F { s with currentModel := model }

/-- `ModalResonator::setParameters`: stores the params (including the
model) and recomputes all mode frequencies. -/
def setParameters (F : RealFns) (s : ModalState) (p : ResonatorParams) : ModalState :=
  updateModeFrequencies F { s with params := p }

/-- `ModalResonator::trigger`. -/
def trigger (F : RealFns) (s : ModalState) (velocity : ℚ) : ModalState :=
  let strikePosition := s.params.position
  { s with
    modes := fun i =>
      let positionGain := F.sin (((i : ℕ) + 1) * F.pi * strikePosition)
      let amplitude := velocity * positionGain * (1 / ((i : ℕ) + 1))
      (s.modes i).excite amplitude }

/-- `ModalResonator::processSample`: sum of all mode outputs, scaled by 0.3. -/
def processSample (s : ModalState) (input : ℚ) : ℚ × ModalState :=
  let output := ∑ i : Fin 8, ((s.modes i).process input).1
  (output * (3/10), { s with modes := fun i => ((s.modes i).process input).2 })

end ModalState

/-! ## GranularEngine (Mutable-Instruments-Clouds-style granular synthesis)

From `UltimatePluckEngine.h`, class `GranularEngine`. -/

/-- `GranularEngine::Grain`. -/
structure Grain where
  active : Bool := false
  position : ℚ := 0
  phase : ℚ := 0
  duration : ℚ := 1/10
  pitch : ℚ := 1
  pan : ℚ := 1/2
  amplitude : ℚ := 1

/-- `GranularEngine::CloudsParams`. -/
structure CloudsParams where
  position : ℚ := 1/2
  size : ℚ := 1/2
  density : ℚ := 1/2
  texture : ℚ := 1/2
  pitch : ℚ := 0
  feedback : ℚ := 0
  reverb : ℚ := 3/10
  stereoSpread : ℚ := 1/2
  freeze : Bool := false

/-- `GranularEngine` state.  The stereo circular input buffer is a pair of
total functions (samples outside `[0, bufferSize)` are never read by
in-range code paths); `rngIdx` is the cursor into the engine's
`juce::Random` stream. -/
structure GranularState where
  bufL : ℕ → ℚ := fun _ => 0
  bufR : ℕ → ℚ := fun _ => 0
  bufferSize : ℕ := 48000 * 4
  grains : List Grain := List.replicate 64 {}
  params : CloudsParams := {}
  sampleRate : ℚ := 44100
  writePos : ℕ := 0
  rngIdx : ℕ := 0

namespace GranularState

/-- `GranularEngine::setSampleRate` — note: stores the rate only, the
input buffer is never resized after construction. -/
def setSampleRate (s : GranularState) (sr : ℚ) : GranularState :=
  { s with sampleRate := sr }

/-- `GranularEngine::setParameters`. -/
def setParameters (s : GranularState) (p : CloudsParams) : GranularState :=
  { s with params := p }

/-- `GranularEngine::writeInput`. -/
def writeInput (s : GranularState) (leftSample rightSample : ℚ) : GranularState :=
  if s.params.freeze then s
  else
    { s with
      bufL := Function.update s.bufL s.writePos leftSample
      bufR := Function.update s.bufR s.writePos rightSample
      writePos := (s.writePos + 1) % s.bufferSize }

end GranularState

/-- `GranularEngine::spawnGrain` body: walk the pool, activate the first
inactive grain (drawing 4 random values), leave everything else alone. -/
def spawnGrainGo (F : RealFns) (rng : ℕ → ℚ) (p : CloudsParams) :
    List Grain → ℕ → List Grain × ℕ
  | [], idx => ([], idx)
  | g :: gs, idx =>
    if g.active then
      let r := spawnGrainGo F rng p gs idx
      (g :: r.1, r.2)
    else
      let positionSpread := p.texture * (2/10)
      let position := (rng idx - 1/2) * positionSpread
      let duration := 1/100 + p.size * (1/2)
      let pitchSemitones := p.pitch * 12 + (rng (idx + 1) - 1/2) * p.texture * 2
      let pitch := F.pow2 (pitchSemitones / 12)
      let pan := 1/2 + (rng (idx + 2) - 1/2) * p.stereoSpread
      let amplitude := 8/10 + rng (idx + 3) * (4/10)
      ({ active := true, phase := 0, position := position, duration := duration,
         pitch := pitch, pan := pan, amplitude := amplitude } :: gs, idx + 4)

/-- `GranularEngine::spawnGrain`. -/
def GranularState.spawnGrain (F : RealFns) (rng : ℕ → ℚ) (s : GranularState) : GranularState :=
  let r := spawnGrainGo F rng s.params s.grains s.rngIdx
  { s with grains := r.1, rngIdx := r.2 }

/-- The per-grain body of `GranularEngine::processStereo`: returns the
(left, right) contribution, the updated grain, and whether the grain is
counted as still active. -/
def grainStep (F : RealFns) (n : ℕ) (bufL bufR : ℕ → ℚ) (pp : CloudsParams)
    (sr : ℚ) (g : Grain) : ℚ × ℚ × Grain × Bool :=
  if g.active = false then (0, 0, g, false)
  else
    let readPos : ℚ := pp.position * n + g.position * n * (1/10)
    let readPos := readPos + g.phase * g.pitch * n
    let pos : ℤ := Int.tmod (ctrunc readPos) n
    let frac : ℚ := readPos - ctrunc readPos
    let nextPos : ℤ := Int.tmod (pos + 1) n
    let sampleL := bufL pos.toNat * (1 - frac) + bufL nextPos.toNat * frac
    let sampleR := bufR pos.toNat * (1 - frac) + bufR nextPos.toNat * frac
    let env := (1/2) * (1 - F.cos (g.phase * F.twoPi))
    let sampleL := sampleL * (env * g.amplitude)
    let sampleR := sampleR * (env * g.amplitude)
    let leftGain := F.cos (g.pan * F.halfPi)
    let rightGain := F.sin (g.pan * F.halfPi)
    let newPhase := g.phase + 1 / (g.duration * sr)
    if newPhase ≥ 1 then
      (sampleL * leftGain, sampleR * rightGain, { g with phase := newPhase, active := false }, false)
    else
      (sampleL * leftGain, sampleR * rightGain, { g with phase := newPhase }, true)

/-- `GranularEngine::processStereo`: stochastic spawn, per-grain
accumulation, deactivation at phase ≥ 1, `1/sqrt(activeCount)`
normalization. -/
def GranularState.processStereo (F : RealFns) (rng : ℕ → ℚ) (s : GranularState) :
    (ℚ × ℚ) × GranularState :=
  let spawnProbability := s.params.density * (2/100)
  let spawned :=
    if rng s.rngIdx < spawnProbability then
      spawnGrainGo F rng s.params s.grains (s.rngIdx + 1)
    else (s.grains, s.rngIdx + 1)
  let results := spawned.1.map (grainStep F s.bufferSize s.bufL s.bufR s.params s.sampleRate)
  let left := (results.map (·.1)).sum
  let right := (results.map (·.2.1)).sum
  let activeCount : ℕ := (results.filter (·.2.2.2)).length
  let newGrains := results.map (·.2.2.1)
  let outs : ℚ × ℚ :=
    if 0 < activeCount then
      let norm := 1 / F.sqrt (activeCount)
      (left * norm, right * norm)
    else (left, right)
  (outs, { s with grains := newGrains, rngIdx := spawned.2 })

/-- Number of active grains in a pool. -/
def countActive (gs : List Grain) : ℕ := (gs.filter (·.active)).length

/-! ## AdvancedWavetableEngine (Pigments-style wavetable oscillator)

From `UltimatePluckEngine.h`, class `AdvancedWavetableEngine`. -/

/-- `AdvancedWavetableEngine::tableSize`. -/
def tableSize : ℕ := 2048

/-- `AdvancedWavetableEngine::WavetableParams`. -/
structure WavetableParams where
  tableA : ℤ := 0
  tableB : ℤ := 1
  morph : ℚ := 0
  warp : ℚ := 0
  fold : ℚ := 0
  formant : ℚ := 0

/-- `AdvancedWavetableEngine::generateWavetables`: sample `i` of table
`table` (additive synthesis with table-position-dependent harmonic count
and inharmonicity). -/
def generateWavetable (F : RealFns) (table i : ℕ) : ℚ :=
  let tablePos : ℚ := (table : ℚ) / 31
  let phase : ℚ := (i : ℚ) / tableSize
  let numHarmonics : ℕ := 1 + (ctrunc (tablePos * 16)).toNat
  let sample : ℚ := ∑ h ∈ Finset.Icc 1 numHarmonics,
    (1 / (h : ℚ)) * F.sin ((h : ℚ) * (1 + tablePos * (1/10) * (h : ℚ)) * phase * F.twoPi)
  sample / numHarmonics

/-- `AdvancedWavetableEngine::readTable`: clamped table index, linear
interpolation between adjacent samples. -/
def readTable (tab : ℕ → ℕ → ℚ) (phase : ℚ) (tableIndex : ℤ) : ℚ :=
  let t : ℕ := (jlimitI 0 31 tableIndex).toNat
  let pos : ℚ := phase * tableSize
  let index1 : ℤ := Int.tmod (ctrunc pos) tableSize
  let index2 : ℤ := Int.tmod (index1 + 1) tableSize
  let frac : ℚ := pos - ctrunc pos
  tab t index1.toNat + frac * (tab t index2.toNat - tab t index1.toNat)

/-- `AdvancedWavetableEngine::getSample`, over an arbitrary table bank. -/
def wtGetSample (F : RealFns) (tab : ℕ → ℕ → ℚ) (phase : ℚ) (p : WavetableParams) : ℚ :=
  let sampleA := readTable tab phase p.tableA
  let sampleB := readTable tab phase p.tableB
  let morphed := sampleA + p.morph * (sampleB - sampleA)
  let morphed :=
    if p.warp ≠ 0 then
      let warpedPhase := phase + p.warp * F.sin (phase * F.twoPi)
      let warpedPhase := cppFmod1 warpedPhase
      let warpedPhase := if warpedPhase < 0 then warpedPhase + 1 else warpedPhase
      readTable tab warpedPhase p.tableA
    else morphed
  if p.fold > 0 then F.sin (morphed * (1 + p.fold * 8)) else morphed

/-- `AdvancedWavetableEngine::getSample` on the engine's own generated
tables. -/
def engineGetSample (F : RealFns) (phase : ℚ) (p : WavetableParams) : ℚ :=
  wtGetSample F (generateWavetable F) phase p

/-! ## KarplusStrongEngine (delay-line plucked string)

From `UltimatePluckEngine.h`, class `KarplusStrongEngine`. -/

structure KSState where
  delayLine : List ℚ := []
  sampleRate : ℚ := 44100
  frequency : ℚ := 440
  delayLength : ℚ := 100
  writePos : ℕ := 0
  rngIdx : ℕ := 0

/-- `std::vector::resize(n, x)`: keeps the first `n` existing elements,
appends copies of `x` only if the vector grows. -/
def vecResize (v : List ℚ) (n : ℕ) (x : ℚ) : List ℚ :=
  v.take n ++ List.replicate (n - v.length) x

namespace KSState

/-- `KarplusStrongEngine::setSampleRate`. -/
def setSampleRate (s : KSState) (sr : ℚ) : KSState := { s with sampleRate := sr }

/-- `KarplusStrongEngine::setFrequency`. -/
def setFrequency (s : KSState) (freq : ℚ) : KSState :=
  let dl := s.sampleRate / freq
  { s with
    frequency := freq
    delayLength := dl
    delayLine := vecResize s.delayLine ((ctrunc dl).toNat + 1) 0
    writePos := 0 }

/-- `KarplusStrongEngine::trigger`: refill the delay line with scaled
noise from the random stream. -/
def trigger (rng : ℕ → ℚ) (s : KSState) (velocity : ℚ) : KSState :=
  { s with
    delayLine := (List.range s.delayLine.length).map
      (fun i => (rng (s.rngIdx + i) * 2 - 1) * velocity)
    rngIdx := s.rngIdx + s.delayLine.length }

/-- `KarplusStrongEngine::getSample`: read output at the cursor, average
with the previous sample, damp by 0.995, write back, advance. -/
def getSample (s : KSState) : ℚ × KSState :=
  let n := s.delayLine.length
  let output := s.delayLine.getD s.writePos 0
  let prevPos := (s.writePos + n - 1) % n
  let averaged := (s.delayLine.getD s.writePos 0 + s.delayLine.getD prevPos 0) * (1/2)
  let averaged := averaged * (199/200)
  (output,
   { s with
     delayLine := s.delayLine.set s.writePos averaged
     writePos := (s.writePos + 1) % n })

/-- Modelled from the spec: `getSample` with the damping coefficient as a
parameter.  The source hard-codes `0.995f`; the spec discusses the
behaviour "if damping is set to 1.0", which has no code counterpart, so
this definition generalizes the source's fixed constant to a parameter
`damping`, all else identical. -/
def getSampleD (damping : ℚ) (s : KSState) : ℚ × KSState :=
  let n := s.delayLine.length
  let output := s.delayLine.getD s.writePos 0
  let prevPos := (s.writePos + n - 1) % n
  let averaged := (s.delayLine.getD s.writePos 0 + s.delayLine.getD prevPos 0) * (1/2)
  let averaged := averaged * damping
  (output,
   { s with
     delayLine := s.delayLine.set s.writePos averaged
     writePos := (s.writePos + 1) % n })

end KSState

/-! ## BasicOscillator (PolyBLEP oscillator)

From `BasicOscillator.h`. -/

inductive WaveType
  | Sine
  | Saw
  | Square
  | Triangle
  | Pulse
deriving DecidableEq, Repr

structure OscState where
  waveType : WaveType := .Saw
  frequency : ℚ := 440
  phase : ℚ := 0
  phaseIncrement : ℚ := 0
  pulseWidth : ℚ := 1/2
  sampleRate : ℚ := 44100
  lastOutput : ℚ := 0

/-- `BasicOscillator::polyBLEP`. -/
def polyBLEP (t dt : ℚ) : ℚ :=
  if t < dt then
    let u := t / dt
    u + u - u * u - 1
  else if t > 1 - dt then
    let u := (t - 1) / dt
    u * u + u + u + 1
  else 0

namespace OscState

/-- `BasicOscillator::updatePhaseIncrement`. -/
def updatePhaseIncrement (o : OscState) : OscState :=
  { o with phaseIncrement := jlimitQ 0 (1/2) (o.frequency / o.sampleRate) }

/-- `BasicOscillator::setWaveType`. -/
def setWaveType (o : OscState) (t : WaveType) : OscState := { o with waveType := t }

/-- `BasicOscillator::setFrequency`. -/
def setFrequency (o : OscState) (freq : ℚ) : OscState :=
  updatePhaseIncrement { o with frequency := jlimitQ 20 20000 freq }

/-- `BasicOscillator::setPulseWidth`. -/
def setPulseWidth (o : OscState) (width : ℚ) : OscState :=
  { o with pulseWidth := jlimitQ (1/100) (99/100) width }

/-- `BasicOscillator::setSampleRate`. -/
def setSampleRate (o : OscState) (sr : ℚ) : OscState :=
  updatePhaseIncrement { o with sampleRate := sr }

/-- `BasicOscillator::reset`. -/
def reset (o : OscState) : OscState := { o with phase := 0, lastOutput := 0 }

/-- `BasicOscillator::processSample`. -/
def processSample (F : RealFns) (o : OscState) : ℚ × OscState :=
  let output :=
    match o.waveType with
    | .Sine => F.sin (2 * F.pi * o.phase)
    | .Saw => (2 * o.phase - 1) - polyBLEP o.phase o.phaseIncrement
    | .Square =>
        let naive : ℚ := if o.phase < 1/2 then 1 else -1
        naive + polyBLEP o.phase o.phaseIncrement
          - polyBLEP (cppFmod1 (o.phase + 1/2)) o.phaseIncrement
    | .Triangle =>
        if o.phase < 1/4 then 4 * o.phase
        else if o.phase < 3/4 then 2 - 4 * o.phase
        else 4 * o.phase - 4
    | .Pulse =>
        let naive : ℚ := if o.phase < o.pulseWidth then 1 else -1
        naive + polyBLEP o.phase o.phaseIncrement
          - polyBLEP (cppFmod1 (o.phase + (1 - o.pulseWidth))) o.phaseIncrement
  let phase1 := o.phase + o.phaseIncrement
  let phase2 := if phase1 ≥ 1 then phase1 - 1 else phase1
  (output, { o with phase := phase2, lastOutput := output })

end OscState

/-! ## UltimatePluckVoice

From `UltimatePluckProcessor.h`.  The JUCE library components whose
source is outside this repository (`juce::ADSR`,
`juce::dsp::StateVariableTPTFilter`) are abstracted as records of
operations over opaque state types `ε` (envelope) and `φ` (filter). -/

/-- `juce::ADSR::Parameters`. -/
structure ADSRParams where
  attack : ℚ := 0
  decay : ℚ := 0
  sustain : ℚ := 1
  release : ℚ := 0

/-- Abstract interface of `juce::ADSR` (library component, source not in
this repository). -/
structure EnvLib (ε : Type) where
  setSampleRate : ε → ℚ → ε
  setParameters : ε → ADSRParams → ε
  noteOn : ε → ε
  noteOff : ε → ε
  getNextSample : ε → ℚ × ε
  isActive : ε → Bool

/-- Abstract interface of `juce::dsp::StateVariableTPTFilter` (library
component, source not in this repository). -/
structure FilterLib (φ : Type) where
  prepare : φ → ℚ → φ
  reset : φ → φ
  setCutoffFrequency : φ → ℚ → φ
  setResonance : φ → ℚ → φ
  processSample : φ → ℕ → ℚ → ℚ × φ

/-- `UltimatePluckVoice::EngineMode`. -/
inductive EngineMode
  | Rings
  | Clouds
  | Karplus
  | RingsIntoGrains
  | HybridAll
  | BasicOscillator
  | OscPlusRings
  | OscPlusClouds
  | FullHybrid
  | NumModes
deriving DecidableEq, Repr

/-- `UltimatePluckVoice::VoiceParams`. -/
structure VoiceParams where
  engineMode : EngineMode := .HybridAll
  ringsBrightness : ℚ := 1/2
  ringsDamping : ℚ := 1/2
  ringsPosition : ℚ := 1/2
  ringsStructure : ℚ := 1/2
  ringsModel : ResonatorModel := .String
  cloudsParams : CloudsParams := {}
  ringsMix : ℚ := 1/2
  karplusMix : ℚ := 3/10
  wavetableMix : ℚ := 2/10
  grainsMix : ℚ := 1/2
  wavetableParams : WavetableParams := {}
  osc1Wave : WaveType := .Saw
  osc2Wave : WaveType := .Saw
  osc1Octave : ℚ := 0
  osc2Octave : ℚ := 0
  osc1Semi : ℚ := 0
  osc2Semi : ℚ := 0
  osc1Fine : ℚ := 0
  osc2Fine : ℚ := 7
  osc1PW : ℚ := 1/2
  osc2PW : ℚ := 1/2
  osc1Mix : ℚ := 0
  osc2Mix : ℚ := 0
  filterCutoff : ℚ := 5000
  filterResonance : ℚ := 1
  filterEnvAmount : ℚ := 1/2
  attack : ℚ := 1/1000
  decay : ℚ := 3/10
  sustain : ℚ := 7/10
  release : ℚ := 1/2

/-- `UltimatePluckVoice` mutable state.  `currentNote` models the JUCE
base class's currently-playing note (set by the framework before
`startNote`, cleared by `clearCurrentNote()`). -/
structure VoiceState (ε φ : Type) where
  modal : ModalState := {}
  granular : GranularState := {}
  karplus : KSState := {}
  osc1 : OscState := {}
  osc2 : OscState := {}
  filter : φ
  mainEnv : ε
  filterEnv : ε
  params : VoiceParams := {}
  frequency : ℚ := 440
  noteVelocity : ℚ := 0
  sampleRate : ℚ := 44100
  isActive : Bool := false
  wavetablePhase : ℚ := 0
  fadeInCounter : ℕ := 0
  fadeInSamples : ℕ := 0
  fadeOutCounter : ℕ := 0
  fadeOutSamples : ℕ := 0
  isFadingOut : Bool := false
  currentNote : Option ℕ := none

/-- `juce::MidiMessage::getMidiNoteInHertz` (A440 reference). -/
def midiNoteInHertz (F : RealFns) (note : ℕ) : ℚ :=
  440 * F.pow2 (((note : ℚ) - 69) / 12)

namespace VoiceState

variable {ε φ : Type}

/-- `UltimatePluckVoice::startNote`. -/
def startNote (F : RealFns) (eL : EnvLib ε) (ksRng : ℕ → ℚ)
    (s : VoiceState ε φ) (midiNote : ℕ) (velocity : ℚ) : VoiceState ε φ :=
  let frequency := midiNoteInHertz F midiNote
  let ringParams : ResonatorParams :=
    { frequency := frequency
      brightness := s.params.ringsBrightness
      damping := s.params.ringsDamping
      position := s.params.ringsPosition
      structure_ := s.params.ringsStructure
      model := s.params.ringsModel }
  { s with
    currentNote := some midiNote
    frequency := frequency
    noteVelocity := velocity
    isActive := true
    fadeInSamples := (ctrunc (s.sampleRate * (1/100))).toNat
    fadeInCounter := 0
    isFadingOut := false
    modal := (s.modal.setParameters F ringParams).trigger F velocity
    karplus := (s.karplus.setFrequency frequency).trigger ksRng velocity
    wavetablePhase := 0
    mainEnv := eL.noteOn s.mainEnv
    filterEnv := eL.noteOn s.filterEnv }

/-- `UltimatePluckVoice::stopNote`. -/
def stopNote (eL : EnvLib ε) (s : VoiceState ε φ) (allowTailOff : Bool) : VoiceState ε φ :=
  if allowTailOff then
    { s with mainEnv := eL.noteOff s.mainEnv, filterEnv := eL.noteOff s.filterEnv }
  else
    { s with
      fadeOutSamples := (ctrunc (s.sampleRate * (2/1000))).toNat
      fadeOutCounter := 0
      isFadingOut := true }

/-- `UltimatePluckVoice::setParameters`. -/
def setParameters (eL : EnvLib ε) (s : VoiceState ε φ) (p : VoiceParams) : VoiceState ε φ :=
  { s with
    params := p
    mainEnv := eL.setParameters s.mainEnv
      { attack := p.attack, decay := p.decay, sustain := p.sustain, release := p.release }
    filterEnv := eL.setParameters s.filterEnv
      { attack := p.attack * (1/2), decay := p.decay * (7/10)
        sustain := p.sustain * (8/10), release := p.release * (6/10) }
    granular := s.granular.setParameters p.cloudsParams
    osc1 := (s.osc1.setWaveType p.osc1Wave).setPulseWidth p.osc1PW
    osc2 := (s.osc2.setWaveType p.osc2Wave).setPulseWidth p.osc2PW }

/-- `UltimatePluckVoice::prepare`. -/
def prepare (eL : EnvLib ε) (fL : FilterLib φ) (s : VoiceState ε φ) (sr : ℚ) : VoiceState ε φ :=
  { s with
    sampleRate := sr
    mainEnv := eL.setSampleRate s.mainEnv sr
    filterEnv := eL.setSampleRate s.filterEnv sr
    modal := s.modal.setSampleRate sr
    granular := s.granular.setSampleRate sr
    karplus := s.karplus.setSampleRate sr
    osc1 := s.osc1.setSampleRate sr
    osc2 := s.osc2.setSampleRate sr
    filter := fL.reset (fL.prepare s.filter sr) }

/-- `UltimatePluckVoice::updateFilter` applied to a filter state. -/
def applyUpdateFilter (fL : FilterLib φ) (p : VoiceParams) (f : φ) (envValue : ℚ) : φ :=
  let modulated := p.filterCutoff * (1 + p.filterEnvAmount * envValue * 10)
  let modulated := jlimitQ 20 20000 modulated
  fL.setResonance (fL.setCutoffFrequency f modulated) p.filterResonance

/-- `UltimatePluckVoice::generateWavetable`. -/
def generateWavetableSample (F : RealFns) (s : VoiceState ε φ) : ℚ :=
  engineGetSample F s.wavetablePhase s.params.wavetableParams

/-- The `switch (params.engineMode)` block of
`UltimatePluckVoice::renderNextBlock`: produces (leftOut, rightOut) and
the updated engine states, given the already-computed oscillator mix. -/
def engineDispatch (F : RealFns) (grRng : ℕ → ℚ) (oscOutput : ℚ)
    (s : VoiceState ε φ) : ℚ × ℚ × VoiceState ε φ :=
  match s.params.engineMode with
  | .Rings =>
      let r := s.modal.processSample 0
      (r.1, r.1, { s with modal := r.2 })
  | .Clouds =>
      let wavetableSample := generateWavetableSample F s
      let g1 := s.granular.writeInput wavetableSample wavetableSample
      let r := g1.processStereo F grRng
      (r.1.1, r.1.2, { s with granular := r.2 })
  | .Karplus =>
      let r := s.karplus.getSample
      (r.1, r.1, { s with karplus := r.2 })
  | .RingsIntoGrains =>
      let rr := s.modal.processSample 0
      let g1 := s.granular.writeInput rr.1 rr.1
      let r := g1.processStereo F grRng
      (r.1.1, r.1.2, { s with modal := rr.2, granular := r.2 })
  | .HybridAll =>
      let rr := s.modal.processSample 0
      let rings := rr.1 * s.params.ringsMix
      let kk := s.karplus.getSample
      let karplus := kk.1 * s.params.karplusMix
      let wavetable := generateWavetableSample F s * s.params.wavetableMix
      let mixed := rings + karplus + wavetable
      let g1 := s.granular.writeInput mixed mixed
      let r := g1.processStereo F grRng
      (mixed * (1 - s.params.grainsMix) + r.1.1 * s.params.grainsMix,
       mixed * (1 - s.params.grainsMix) + r.1.2 * s.params.grainsMix,
       { s with modal := rr.2, karplus := kk.2, granular := r.2 })
  | .BasicOscillator => (oscOutput, oscOutput, s)
  | .OscPlusRings =>
      let rr := s.modal.processSample 0
      (oscOutput + rr.1 * (1/2), oscOutput + rr.1 * (1/2), { s with modal := rr.2 })
  | .OscPlusClouds =>
      let g1 := s.granular.writeInput oscOutput oscOutput
      let r := g1.processStereo F grRng
      (oscOutput * (1/2) + r.1.1 * (1/2), oscOutput * (1/2) + r.1.2 * (1/2),
       { s with granular := r.2 })
  | .FullHybrid =>
      let rr := s.modal.processSample 0
      let rings := rr.1 * s.params.ringsMix
      let kk := s.karplus.getSample
      let karplus := kk.1 * s.params.karplusMix
      let wavetable := generateWavetableSample F s * s.params.wavetableMix
      let engineMix := rings + karplus + wavetable
      let totalMix := oscOutput + engineMix
      let g1 := s.granular.writeInput totalMix totalMix
      let r := g1.processStereo F grRng
      (totalMix * (1 - s.params.grainsMix) + r.1.1 * s.params.grainsMix,
       totalMix * (1 - s.params.grainsMix) + r.1.2 * s.params.grainsMix,
       { s with modal := rr.2, karplus := kk.2, granular := r.2 })
  | .NumModes => (0, 0, s)

end VoiceState

/-- Result of one iteration of the per-sample loop in
`UltimatePluckVoice::renderNextBlock`: the updated voice, the stereo
contribution added into the block buffer (`none` when the fade-out
completed and the loop broke before the write), the fade gains the
iteration computed, and whether the loop continues. -/
structure RenderStep (ε φ : Type) where
  state : VoiceState ε φ
  contrib : Option (ℚ × ℚ)
  fadeInGain : ℚ
  fadeOutGain : ℚ
  cont : Bool

namespace VoiceState

variable {ε φ : Type}

/-- The audio-computation prefix of the per-sample loop body of
`UltimatePluckVoice::renderNextBlock`: oscillator frequency updates and
sample generation, engine-mode dispatch, stereo filtering, envelope
advance and filter-cutoff modulation.  Returns
`((filteredLeft, filteredRight, mainEnvValue), state)`. -/
def renderCore (F : RealFns) (eL : EnvLib ε) (fL : FilterLib φ) (grRng : ℕ → ℚ)
    (s : VoiceState ε φ) : (ℚ × ℚ × ℚ) × VoiceState ε φ :=
  let osc1Freq := s.frequency *
    F.pow2 (s.params.osc1Octave + s.params.osc1Semi / 12 + s.params.osc1Fine / 1200)
  let osc2Freq := s.frequency *
    F.pow2 (s.params.osc2Octave + s.params.osc2Semi / 12 + s.params.osc2Fine / 1200)
  let o1 := (s.osc1.setFrequency osc1Freq).processSample F
  let o2 := (s.osc2.setFrequency osc2Freq).processSample F
  let oscOutput := o1.1 * s.params.osc1Mix + o2.1 * s.params.osc2Mix
  let s1 := { s with osc1 := o1.2, osc2 := o2.2 }
  let d := engineDispatch F grRng oscOutput s1
  let s2 := d.2.2
  let f1 := fL.processSample s2.filter 0 d.1
  let f2 := fL.processSample f1.2 1 d.2.1
  let e1 := eL.getNextSample s2.mainEnv
  let e2 := eL.getNextSample s2.filterEnv
  ((f1.1, f2.1, e1.1),
   { s2 with
     filter := applyUpdateFilter fL s2.params f2.2 e2.1
     mainEnv := e1.2
     filterEnv := e2.2 })

/-- The fade/gain/write suffix of the per-sample loop body of
`UltimatePluckVoice::renderNextBlock`, applied to the filtered samples
and envelope value produced by `renderCore`. -/
def applyFades (eL : EnvLib ε) (vals : ℚ × ℚ × ℚ) (s3 : VoiceState ε φ) :
    RenderStep ε φ :=
  let fadeInGain : ℚ :=
    if s3.fadeInCounter < s3.fadeInSamples
    then (s3.fadeInCounter : ℚ) / (s3.fadeInSamples : ℚ) else 1
  let s4 := if s3.fadeInCounter < s3.fadeInSamples
    then { s3 with fadeInCounter := s3.fadeInCounter + 1 } else s3
  if s4.isFadingOut then
    let fadeOutGain : ℚ := 1 - (s4.fadeOutCounter : ℚ) / (s4.fadeOutSamples : ℚ)
    let foc := s4.fadeOutCounter + 1
    if s4.fadeOutSamples ≤ foc then
      { state := { s4 with fadeOutCounter := foc, currentNote := none,
                           isActive := false, isFadingOut := false }
        contrib := none
        fadeInGain := fadeInGain
        fadeOutGain := fadeOutGain
        cont := false }
    else
      let s5 := { s4 with fadeOutCounter := foc }
      let totalGain := vals.2.2 * s5.noteVelocity * fadeInGain * fadeOutGain * (1/4)
      let wp := s5.wavetablePhase + s5.frequency / s5.sampleRate
      let s6 := { s5 with wavetablePhase := if wp ≥ 1 then wp - 1 else wp }
      if eL.isActive s6.mainEnv then
        { state := s6
          contrib := some (vals.1 * totalGain, vals.2.1 * totalGain)
          fadeInGain := fadeInGain, fadeOutGain := fadeOutGain, cont := true }
      else
        { state := { s6 with currentNote := none, isActive := false }
          contrib := some (vals.1 * totalGain, vals.2.1 * totalGain)
          fadeInGain := fadeInGain, fadeOutGain := fadeOutGain, cont := false }
  else
    let fadeOutGain : ℚ := 1
    let totalGain := vals.2.2 * s4.noteVelocity * fadeInGain * fadeOutGain * (1/4)
    let wp := s4.wavetablePhase + s4.frequency / s4.sampleRate
    let s6 := { s4 with wavetablePhase := if wp ≥ 1 then wp - 1 else wp }
    if eL.isActive s6.mainEnv then
      { state := s6
        contrib := some (vals.1 * totalGain, vals.2.1 * totalGain)
        fadeInGain := fadeInGain, fadeOutGain := fadeOutGain, cont := true }
    else
      { state := { s6 with currentNote := none, isActive := false }
        contrib := some (vals.1 * totalGain, vals.2.1 * totalGain)
        fadeInGain := fadeInGain, fadeOutGain := fadeOutGain, cont := false }

/-- One iteration of the per-sample loop of
`UltimatePluckVoice::renderNextBlock` (the loop body between
`for (int sample = ...)` braces): the audio computation followed by the
fade/write logic. -/
def renderSample (F : RealFns) (eL : EnvLib ε) (fL : FilterLib φ) (grRng : ℕ → ℚ)
    (s : VoiceState ε φ) : RenderStep ε φ :=
  let c := renderCore F eL fL grRng s
  applyFades eL c.1 c.2

/-- The sample loop of `renderNextBlock`: writes contributions additively
into the (abstract) stereo block buffer at consecutive indices. -/
def renderLoop (F : RealFns) (eL : EnvLib ε) (fL : FilterLib φ) (grRng : ℕ → ℚ) :
    ℕ → ℕ → (ℕ → ℚ) → (ℕ → ℚ) → VoiceState ε φ →
    (ℕ → ℚ) × (ℕ → ℚ) × VoiceState ε φ
  | 0, _, bufL, bufR, s => (bufL, bufR, s)
  | numLeft + 1, idx, bufL, bufR, s =>
    let r := renderSample F eL fL grRng s
    match r.contrib with
    | none => (bufL, bufR, r.state)
    | some (l, rr) =>
      let bufL1 := Function.update bufL idx (bufL idx + l)
      let bufR1 := Function.update bufR idx (bufR idx + rr)
      if r.cont then renderLoop F eL fL grRng numLeft (idx + 1) bufL1 bufR1 r.state
      else (bufL1, bufR1, r.state)

/-- `UltimatePluckVoice::renderNextBlock`. -/
def renderNextBlock (F : RealFns) (eL : EnvLib ε) (fL : FilterLib φ) (grRng : ℕ → ℚ)
    (s : VoiceState ε φ) (bufL bufR : ℕ → ℚ) (startSample numSamples : ℕ) :
    (ℕ → ℚ) × (ℕ → ℚ) × VoiceState ε φ :=
  if s.isActive = false then (bufL, bufR, s)
  else renderLoop F eL fL grRng numSamples startSample bufL bufR s

end VoiceState

/-- A trivial envelope library over `Unit` (always active, zero output),
used to instantiate theorems on concrete inputs. -/
def unitEnvLib : EnvLib Unit :=
  { setSampleRate := fun e _ => e, setParameters := fun e _ => e,
    noteOn := id, noteOff := id,
    getNextSample := fun _ => (0, ()), isActive := fun _ => true }

/-- A trivial filter library over `Unit` (identity filter), used to
instantiate theorems on concrete inputs. -/
def unitFilterLib : FilterLib Unit :=
  { prepare := fun f _ => f, reset := id,
    setCutoffFrequency := fun f _ => f, setResonance := fun f _ => f,
    processSample := fun f _ x => (x, f) }

/-- A default-constructed voice over the trivial library instances. -/
def defaultVoice : VoiceState Unit Unit :=
  { filter := (), mainEnv := (), filterEnv := () }

/-- The `ModalResonator` constructor: `setSampleRate(44100)` followed by
`setResonatorModel(ResonatorModel::String)`. -/
def mkModalResonator (F : RealFns) : ModalState :=
  (({} : ModalState).setSampleRate 44100).setResonatorModel F .String

/-- One state step of `KarplusStrongEngine::getSample` (discarding the
output sample). -/
def ksStep (s : KSState) : KSState := s.getSample.2

/-- The output sample produced by the `n`-th consecutive
`KarplusStrongEngine::getSample` call starting from state `s`. -/
def ksOut (s : KSState) (n : ℕ) : ℚ := ((ksStep^[n] s).getSample).1

/-- A concrete random stream: first draw `0.5`, then always `1`. -/
def rng9 : ℕ → ℚ := fun i => if i = 0 then 1/2 else 1

/-- A concrete Karplus-Strong state: sample rate 1, `setFrequency(1)`
(2-sample delay line), then `trigger(1.0)` against `rng9`, yielding the
delay line `[0, 1]`. -/
def s9 : KSState := (({ sampleRate := 1 } : KSState).setFrequency 1).trigger rng9 1

/-- The states reached from `s9` by 0–6 `getSample` calls (computed by
hand from the source algorithm; verified below). -/
def ksT0 : KSState :=
  { delayLine := [0, 1], sampleRate := 1, frequency := 1, delayLength := 1/1,
    writePos := 0, rngIdx := 2 }

def ksT1 : KSState :=
  { delayLine := [199/400, 1], sampleRate := 1, frequency := 1,
    delayLength := 1/1, writePos := 1, rngIdx := 2 }

def ksT2 : KSState :=
  { delayLine := [199/400, 119201/160000], sampleRate := 1, frequency := 1,
    delayLength := 1/1, writePos := 0, rngIdx := 2 }

def ksT3 : KSState :=
  { delayLine := [39561399/64000000, 119201/160000], sampleRate := 1,
    frequency := 1, delayLength := 1/1, writePos := 1, rngIdx := 2 }

def ksT4 : KSState :=
  { delayLine := [39561399/64000000, 17361118001/25600000000], sampleRate := 1,
    frequency := 1, delayLength := 1/1, writePos := 0, rngIdx := 2 }

def ksT5 : KSState :=
  { delayLine := [6603949842599/10240000000000, 17361118001/25600000000],
    sampleRate := 1, frequency := 1, delayLength := 1/1, writePos := 1,
    rngIdx := 2 }

def ksT6 : KSState :=
  { delayLine := [6603949842599/10240000000000, 2696131011556801/4096000000000000],
    sampleRate := 1, frequency := 1, delayLength := 1/1, writePos := 0,
    rngIdx := 2 }

/-- The voice states along the per-sample render loop after
`startNote(note, vel)` immediately followed by
`stopNote(0, allowTailOff=false)`. -/
def fadeScenario {ε φ : Type} (F : RealFns) (eL : EnvLib ε) (fL : FilterLib φ)
    (ksRng grRng : ℕ → ℚ) (s0 : VoiceState ε φ) (note : ℕ) (vel : ℚ) (n : ℕ) :
    VoiceState ε φ :=
  (fun s => (VoiceState.renderSample F eL fL grRng s).state)^[n]
    ((s0.startNote F eL ksRng note vel).stopNote eL false)

/-!
# Theorems

One theorem per claim of the specification review, with supporting
lemmas.
-/

/-- **C1** (code evaluated at the failing input).  The claim says
`setParameters` with the Bell model and `baseFreq = 100`,
`structure = 0` yields mode 2 at 276 Hz (±0.5).  In the source,
`updateModeFrequencies` switches on `currentModel`, which only
`setResonatorModel` (called solely from the constructor, with `String`)
ever writes; `setParameters` stores `params.model` but never copies it
into `currentModel`.  So a constructor-fresh resonator given Bell
parameters still computes the String series: mode 2 is
`100 × 2 × (1 + 0) = 200` Hz, not 276 ± 0.5. -/
theorem akane_C1_model_ignored :
    (((mkModalResonator F0).setParameters F0
        { frequency := 100, structure_ := 0, model := .Bell }).modes 1).frequency = 200 ∧
    ¬ |(((mkModalResonator F0).setParameters F0
        { frequency := 100, structure_ := 0, model := .Bell }).modes 1).frequency - 276| ≤ 1/2 := by
  have h : (((mkModalResonator F0).setParameters F0
      { frequency := 100, structure_ := 0, model := .Bell }).modes 1).frequency = 200 := by
    simp [mkModalResonator, ModalState.setParameters, ModalState.setResonatorModel,
      ModalState.setSampleRate, ModalState.updateModeFrequencies,
      ModeState.setFrequency, ModeState.setDecay, ModeState.setBrightness,
      ModeState.updateCoefficients, ModeState.setSampleRate]
    norm_num
  refine ⟨h, ?_⟩
  rw [h]
  norm_num

/-- **C2**: whenever `warp ≠ 0`, `AdvancedWavetableEngine::getSample`
discards the morphed value and returns the interpolated read of
`tableA` at the warped-and-wrapped phase, with the fold stage (when
`fold > 0`) applied on top; the result is independent of `morph` and
`tableB`. -/
theorem akane_C2_warp_overrides_morph (F : RealFns) (tab : ℕ → ℕ → ℚ) (phase : ℚ)
    (p : WavetableParams) (hw : p.warp ≠ 0) :
    (wtGetSample F tab phase p =
      (let warpedPhase := cppFmod1 (phase + p.warp * F.sin (phase * F.twoPi))
       let warpedPhase := if warpedPhase < 0 then warpedPhase + 1 else warpedPhase
       let v := readTable tab warpedPhase p.tableA
       if p.fold > 0 then F.sin (v * (1 + p.fold * 8)) else v)) ∧
    (∀ morph tableB, wtGetSample F tab phase { p with morph := morph, tableB := tableB } =
      wtGetSample F tab phase p) := by
  constructor
  · simp [wtGetSample, hw]
  · intro morph tableB
    simp [wtGetSample, hw]

/-- Closed witness for `akane_C2_warp_overrides_morph` at `warp = 1`. -/
theorem akane_C2_witness :
    ({ warp := 1 : WavetableParams }.warp ≠ 0) ∧
    ((wtGetSample F0 (fun _ _ => 0) (1/2) { warp := 1 } =
      (let warpedPhase := cppFmod1 ((1:ℚ)/2 + (1:ℚ) * F0.sin ((1/2) * F0.twoPi))
       let warpedPhase := if warpedPhase < 0 then warpedPhase + 1 else warpedPhase
       let v := readTable (fun _ _ => 0) warpedPhase ({ warp := 1 : WavetableParams }).tableA
       if ({ warp := 1 : WavetableParams }).fold > 0 then
         F0.sin (v * (1 + ({ warp := 1 : WavetableParams }).fold * 8)) else v)) ∧
     (∀ morph tableB,
        wtGetSample F0 (fun _ _ => 0) (1/2) { ({ warp := 1 : WavetableParams }) with
            morph := morph, tableB := tableB } =
        wtGetSample F0 (fun _ _ => 0) (1/2) { warp := 1 })) :=
  ⟨by norm_num,
   akane_C2_warp_overrides_morph F0 (fun _ _ => 0) (1/2) { warp := 1 } (by norm_num)⟩

/-- **C3**: with `tableA = tableB = k`, `morph = 0`, `warp = 0`,
`fold = 0`, `getSample` is exactly `readTable` (the direct interpolated
lookup, with the source's index clamping); and on the engine's own
generated tables, `phase = 0.25` with `k = 5` returns precisely the
precomputed table-5 entry at index 512. -/
theorem akane_C3_roundtrip (F : RealFns) (tab : ℕ → ℕ → ℚ) (phase : ℚ) (k : ℤ) :
    (wtGetSample F tab phase { tableA := k, tableB := k, morph := 0, warp := 0, fold := 0 } =
      readTable tab phase k) ∧
    (engineGetSample F (1/4) { tableA := 5, tableB := 5, morph := 0, warp := 0, fold := 0 } =
      generateWavetable F 5 512) := by
  constructor
  · simp [wtGetSample]
  · have h : readTable (generateWavetable F) (1/4) 5 = generateWavetable F 5 512 := by
      have hpos : ((1:ℚ)/4) * (tableSize : ℚ) = 512 := by norm_num [tableSize]
      simp only [readTable, hpos]
      have : ctrunc 512 = 512 := by norm_num [ctrunc]
      rw [this]
      norm_num [jlimitI, tableSize, Int.tmod]
      rfl
    simpa [engineGetSample, wtGetSample] using h

/-- **C4**: while `freeze` is enabled, `writeInput` is a no-op on the
whole engine state; hence any number of `writeInput` calls leave the
buffer, the write cursor, and every subsequent `processStereo` result
bit-identical. -/
theorem akane_C4_freeze (F : RealFns) (rng : ℕ → ℚ) (s : GranularState)
    (hf : s.params.freeze = true) (inputs : List (ℚ × ℚ)) :
    (inputs.foldl (fun st pr => st.writeInput pr.1 pr.2) s = s) ∧
    ((inputs.foldl (fun st pr => st.writeInput pr.1 pr.2) s).processStereo F rng =
      s.processStereo F rng) := by
  have key : ∀ l r, s.writeInput l r = s := by
    intro l r
    simp [GranularState.writeInput, hf]
  have hfold : inputs.foldl (fun st pr => st.writeInput pr.1 pr.2) s = s := by
    induction inputs with
    | nil => rfl
    | cons hd tl ih => simpa [List.foldl_cons, key hd.1 hd.2] using ih
  exact ⟨hfold, by rw [hfold]⟩

/-- Closed witness for `akane_C4_freeze`: a frozen engine, three writes. -/
theorem akane_C4_witness :
    (({ params := { freeze := true } } : GranularState).params.freeze = true) ∧
    (([((1:ℚ),(2:ℚ)), (3,4), (5,6)].foldl (fun st pr => st.writeInput pr.1 pr.2)
        ({ params := { freeze := true } } : GranularState) =
      ({ params := { freeze := true } } : GranularState)) ∧
     (([((1:ℚ),(2:ℚ)), (3,4), (5,6)].foldl (fun st pr => st.writeInput pr.1 pr.2)
        ({ params := { freeze := true } } : GranularState)).processStereo F0 (fun _ => 0) =
      ({ params := { freeze := true } } : GranularState).processStereo F0 (fun _ => 0))) :=
  ⟨rfl, akane_C4_freeze F0 (fun _ => 0) _ rfl _⟩

/-- **C7** (counterexample).  The claim says `prepare(sampleRate, _)`
resizes the granular input buffer to 4 × sampleRate samples per channel
for every host rate.  In the source the buffer is allocated once in the
`GranularEngine` constructor at 4 s × 48 kHz = 192000 samples, and
`setSampleRate` (all that `prepare` calls) never resizes it: after
`prepare(44100)` the buffer still holds 192000 ≠ 4 × 44100 = 176400
samples. -/
theorem akane_C7_no_resize :
    ((defaultVoice.prepare unitEnvLib unitFilterLib 44100).granular.bufferSize = 192000) ∧
    ¬ ((defaultVoice.prepare unitEnvLib unitFilterLib 44100).granular.bufferSize
        = 4 * 44100) := by
  constructor
  · rfl
  · intro h
    simp [VoiceState.prepare, GranularState.setSampleRate, defaultVoice] at h

/-- **C7** (amended): the granular input buffer is allocated once at
construction with 4 s of audio at 48 kHz (192000 samples per channel),
and neither `GranularEngine::setSampleRate` nor
`UltimatePluckVoice::prepare` ever changes its size. -/
theorem akane_C7_amended {ε φ : Type} (eL : EnvLib ε) (fL : FilterLib φ)
    (s : VoiceState ε φ) (g : GranularState) (sr : ℚ) :
    ((s.prepare eL fL sr).granular.bufferSize = s.granular.bufferSize) ∧
    ((g.setSampleRate sr).bufferSize = g.bufferSize) ∧
    (({} : GranularState).bufferSize = 48000 * 4) := by
  refine ⟨rfl, rfl, rfl⟩

/-- **C10**: `renderNextBlock` on an inactive voice returns the buffer
and the entire voice state unchanged. -/
theorem akane_C10_idle {ε φ : Type} (F : RealFns) (eL : EnvLib ε) (fL : FilterLib φ)
    (grRng : ℕ → ℚ) (s : VoiceState ε φ) (bufL bufR : ℕ → ℚ)
    (startSample numSamples : ℕ) (h : s.isActive = false) :
    VoiceState.renderNextBlock F eL fL grRng s bufL bufR startSample numSamples
      = (bufL, bufR, s) := by
  simp [VoiceState.renderNextBlock, h]

/-- Closed witness for `akane_C10_idle` on a default (inactive) voice. -/
theorem akane_C10_witness :
    (defaultVoice.isActive = false) ∧
    (VoiceState.renderNextBlock F0 unitEnvLib unitFilterLib (fun _ => 0) defaultVoice
      (fun _ => 0) (fun _ => 0) 0 16 = (fun _ => 0, fun _ => 0, defaultVoice)) :=
  ⟨rfl, akane_C10_idle F0 unitEnvLib unitFilterLib (fun _ => 0) defaultVoice
    (fun _ => 0) (fun _ => 0) 0 16 rfl⟩

/-- `getD` into a zero-filled replicate list is always zero. -/
theorem getD_replicate_zero (m i : ℕ) : (List.replicate m (0:ℚ)).getD i 0 = 0 := by
  rcases lt_or_le i m with h | h
  · rw [List.getD_eq_getElem _ _ (by simpa using h)]
    simp
  · exact List.getD_eq_default _ _ (by simpa using h)

/-- **C6** (counterexample).  The claim says `setFrequency` zero-fills
the whole delay line regardless of its previous contents.  In the
source, `delayLine.resize((int)delayLength + 1, 0.0f)` zero-fills only
newly appended slots: with sample rate 44100 and a previous delay line
`[0.5, 0.7]`, `setFrequency(44100)` resizes to 2 elements and leaves
`[0.5, 0.7]` intact — the elements are not zero. -/
theorem akane_C6_not_zero_filled :
    ((({ delayLine := [1/2, 7/10], sampleRate := 44100 } : KSState).setFrequency
        44100).delayLine = [1/2, 7/10]) ∧
    ¬ (∀ x ∈ (({ delayLine := [1/2, 7/10], sampleRate := 44100 } : KSState).setFrequency
        44100).delayLine, x = 0) := by
  have hct : ctrunc (1 : ℚ) = 1 := by simp [ctrunc]
  have h : ((({ delayLine := [1/2, 7/10], sampleRate := 44100 } : KSState).setFrequency
      44100).delayLine = ([1/2, 7/10] : List ℚ)) := by
    simp [KSState.setFrequency, vecResize, hct]
  refine ⟨h, ?_⟩
  intro hall
  have h2 := hall (1/2) (by rw [h]; simp)
  norm_num at h2

/-- **C6** (amended): for `freq > 0`, `setFrequency(freq)` leaves the
delay line with `floor(sampleRate/freq) + 1` elements and the write
cursor at 0; slots beyond the previous length are zero-filled, while
surviving leading elements keep their previous values (`std::vector::resize`
only fills newly appended slots — the line is fully overwritten with
noise only by the subsequent `trigger`). -/
theorem akane_C6_resize (s : KSState) (freq : ℚ) (h0 : 0 < freq)
    (h1 : 0 ≤ s.sampleRate) :
    ((s.setFrequency freq).delayLine.length = (⌊s.sampleRate / freq⌋).toNat + 1) ∧
    ((s.setFrequency freq).writePos = 0) ∧
    (∀ i, s.delayLine.length ≤ i → (s.setFrequency freq).delayLine.getD i 0 = 0) ∧
    (∀ i, i < s.delayLine.length → i < (⌊s.sampleRate / freq⌋).toNat + 1 →
      (s.setFrequency freq).delayLine.getD i 0 = s.delayLine.getD i 0) := by
  have hdiv : (0:ℚ) ≤ s.sampleRate / freq := div_nonneg h1 h0.le
  have hct : ctrunc (s.sampleRate / freq) = ⌊s.sampleRate / freq⌋ := if_pos hdiv
  have hline : (s.setFrequency freq).delayLine =
      s.delayLine.take ((⌊s.sampleRate / freq⌋).toNat + 1) ++
        List.replicate ((⌊s.sampleRate / freq⌋).toNat + 1 - s.delayLine.length) 0 := by
    simp [KSState.setFrequency, vecResize, hct]
  refine ⟨?_, rfl, ?_, ?_⟩
  · rw [hline]
    simp only [List.length_append, List.length_take, List.length_replicate]
    omega
  · intro i hi
    rw [hline]
    rw [List.getD_append_right _ _ _ _ (by simp; omega)]
    exact getD_replicate_zero _ _
  · intro i hi1 hi2
    rw [hline]
    have hlt : i < (s.delayLine.take ((⌊s.sampleRate / freq⌋).toNat + 1)).length := by
      simp
      omega
    rw [List.getD_append _ _ _ _ hlt]
    rw [List.getD_eq_getElem _ _ hlt, List.getElem_take,
      List.getD_eq_getElem _ _ hi1]

/-- Closed witness for `akane_C6_resize`: a 3-element line resized to 5
at frequency 22050 with sample rate 88200 (old values kept, new slots
zero, cursor reset). -/
theorem akane_C6_witness :
    (0 : ℚ) < 22050 ∧ (0 : ℚ) ≤ (88200 : ℚ) ∧
    (((({ delayLine := [3, 4, 5], sampleRate := 88200 } : KSState).setFrequency
        22050).delayLine.length = (⌊(88200 : ℚ) / 22050⌋).toNat + 1) ∧
     ((({ delayLine := [3, 4, 5], sampleRate := 88200 } : KSState).setFrequency
        22050).writePos = 0) ∧
     (∀ i, ([3, 4, 5] : List ℚ).length ≤ i →
        ((({ delayLine := [3, 4, 5], sampleRate := 88200 } : KSState).setFrequency
          22050).delayLine.getD i 0 = 0)) ∧
     (∀ i, i < ([3, 4, 5] : List ℚ).length → i < (⌊(88200 : ℚ) / 22050⌋).toNat + 1 →
        ((({ delayLine := [3, 4, 5], sampleRate := 88200 } : KSState).setFrequency
          22050).delayLine.getD i 0 =
         (({ delayLine := [3, 4, 5], sampleRate := 88200 } : KSState)).delayLine.getD i 0))) :=
  ⟨by norm_num, by norm_num,
   akane_C6_resize { delayLine := [3, 4, 5], sampleRate := 88200 } 22050
     (by norm_num) (by norm_num)⟩

/-- A grain pool never has more active grains than slots. -/
theorem countActive_le_length (gs : List Grain) : countActive gs ≤ gs.length :=
  List.length_filter_le _ _

/-- `spawnGrain` preserves the pool size. -/
theorem spawnGrainGo_length (F : RealFns) (rng : ℕ → ℚ) (p : CloudsParams) :
    ∀ (gs : List Grain) (idx : ℕ), (spawnGrainGo F rng p gs idx).1.length = gs.length := by
  intro gs
  induction gs with
  | nil => intro idx; rfl
  | cons g tl ih =>
    intro idx
    cases hg : g.active with
    | true => simp [spawnGrainGo, hg, ih]
    | false => simp [spawnGrainGo, hg]

/-- `spawnGrain` activates at most one grain. -/
theorem spawnGrainGo_count (F : RealFns) (rng : ℕ → ℚ) (p : CloudsParams) :
    ∀ (gs : List Grain) (idx : ℕ),
      countActive (spawnGrainGo F rng p gs idx).1 ≤ countActive gs + 1 := by
  intro gs
  induction gs with
  | nil => intro idx; simp [spawnGrainGo, countActive]
  | cons g tl ih =>
    intro idx
    cases hg : g.active with
    | true =>
      have := ih idx
      simp [spawnGrainGo, hg, countActive, List.filter_cons] at *
      omega
    | false =>
      simp [spawnGrainGo, hg, countActive, List.filter_cons]

/-- When every slot is already active, `spawnGrain` changes nothing and
draws no random values. -/
theorem spawnGrainGo_saturated (F : RealFns) (rng : ℕ → ℚ) (p : CloudsParams) :
    ∀ (gs : List Grain) (idx : ℕ), (∀ g ∈ gs, g.active = true) →
      spawnGrainGo F rng p gs idx = (gs, idx) := by
  intro gs
  induction gs with
  | nil => intro idx _; rfl
  | cons g tl ih =>
    intro idx hall
    have hg : g.active = true := hall g (by simp)
    have htl : spawnGrainGo F rng p tl idx = (tl, idx) :=
      ih idx (fun x hx => hall x (by simp [hx]))
    simp [spawnGrainGo, hg, htl]

/-- **C5**: the grain pool is hard-bounded: `processStereo` (including
its stochastic spawn) keeps the pool at 64 slots with at most 64 active
grains; a spawn attempt activates at most one grain; a fully saturated
pool makes `spawnGrain` a complete no-op (no eviction, no mutation, no
random draws); `writeInput` and `setParameters` never touch the pool. -/
theorem akane_C5_pool_bounded (F : RealFns) (rng : ℕ → ℚ) (s : GranularState)
    (l r : ℚ) (p : CloudsParams) (h64 : s.grains.length = 64) :
    (countActive (s.processStereo F rng).2.grains ≤ 64) ∧
    ((s.processStereo F rng).2.grains.length = 64) ∧
    (countActive (s.spawnGrain F rng).grains ≤ 64) ∧
    (countActive (s.spawnGrain F rng).grains ≤ countActive s.grains + 1) ∧
    ((∀ g ∈ s.grains, g.active = true) → s.spawnGrain F rng = s) ∧
    ((s.writeInput l r).grains = s.grains) ∧
    ((s.setParameters p).grains = s.grains) := by
  have hps_len : (s.processStereo F rng).2.grains.length = 64 := by
    simp only [GranularState.processStereo, List.length_map]
    split
    · rw [spawnGrainGo_length]; exact h64
    · exact h64
  refine ⟨?_, hps_len, ?_, ?_, ?_, ?_, ?_⟩
  · calc countActive (s.processStereo F rng).2.grains
        ≤ (s.processStereo F rng).2.grains.length := countActive_le_length _
      _ = 64 := hps_len
  · calc countActive (s.spawnGrain F rng).grains
        ≤ (s.spawnGrain F rng).grains.length := countActive_le_length _
      _ = 64 := by
          simp only [GranularState.spawnGrain]
          rw [spawnGrainGo_length]; exact h64
  · simpa only [GranularState.spawnGrain] using spawnGrainGo_count F rng s.params s.grains s.rngIdx
  · intro hall
    have h := spawnGrainGo_saturated F rng s.params s.grains s.rngIdx hall
    simp [GranularState.spawnGrain, h]
  · simp only [GranularState.writeInput]
    split <;> rfl
  · rfl

/-- Closed witness for `akane_C5_pool_bounded` on a fresh 64-slot pool. -/
theorem akane_C5_witness :
    (({ grains := List.replicate 64 {} } : GranularState).grains.length = 64) ∧
    countActive (({ grains := List.replicate 64 {} } : GranularState).processStereo F0
      (fun _ => 0)).2.grains ≤ 64 :=
  ⟨by simp, (akane_C5_pool_bounded F0 (fun _ => 0)
    ({ grains := List.replicate 64 {} } : GranularState) 1 2 {} (by simp)).1⟩

section FadeLemmas

variable {ε φ : Type} (F : RealFns) (eL : EnvLib ε) (fL : FilterLib φ) (grRng : ℕ → ℚ)

/-- The engine-mode dispatch only updates engine states: every
non-engine field of the voice is left unchanged. -/
theorem engineDispatch_proj (osc : ℚ) (s : VoiceState ε φ) :
    ((VoiceState.engineDispatch F grRng osc s).2.2.mainEnv = s.mainEnv) ∧
    ((VoiceState.engineDispatch F grRng osc s).2.2.filterEnv = s.filterEnv) ∧
    ((VoiceState.engineDispatch F grRng osc s).2.2.filter = s.filter) ∧
    ((VoiceState.engineDispatch F grRng osc s).2.2.params = s.params) ∧
    ((VoiceState.engineDispatch F grRng osc s).2.2.fadeInCounter = s.fadeInCounter) ∧
    ((VoiceState.engineDispatch F grRng osc s).2.2.fadeInSamples = s.fadeInSamples) ∧
    ((VoiceState.engineDispatch F grRng osc s).2.2.fadeOutCounter = s.fadeOutCounter) ∧
    ((VoiceState.engineDispatch F grRng osc s).2.2.fadeOutSamples = s.fadeOutSamples) ∧
    ((VoiceState.engineDispatch F grRng osc s).2.2.isFadingOut = s.isFadingOut) ∧
    ((VoiceState.engineDispatch F grRng osc s).2.2.isActive = s.isActive) ∧
    ((VoiceState.engineDispatch F grRng osc s).2.2.currentNote = s.currentNote) ∧
    ((VoiceState.engineDispatch F grRng osc s).2.2.noteVelocity = s.noteVelocity) ∧
    ((VoiceState.engineDispatch F grRng osc s).2.2.wavetablePhase = s.wavetablePhase) ∧
    ((VoiceState.engineDispatch F grRng osc s).2.2.frequency = s.frequency) ∧
    ((VoiceState.engineDispatch F grRng osc s).2.2.sampleRate = s.sampleRate) := by
  cases h : s.params.engineMode <;> simp [VoiceState.engineDispatch, h]

/-- `renderCore` only updates oscillator/engine/filter/envelope states:
the fade bookkeeping fields and the note/velocity/rate fields are left
unchanged. -/
theorem renderCore_proj (s : VoiceState ε φ) :
    ((VoiceState.renderCore F eL fL grRng s).2.fadeInCounter = s.fadeInCounter) ∧
    ((VoiceState.renderCore F eL fL grRng s).2.fadeInSamples = s.fadeInSamples) ∧
    ((VoiceState.renderCore F eL fL grRng s).2.fadeOutCounter = s.fadeOutCounter) ∧
    ((VoiceState.renderCore F eL fL grRng s).2.fadeOutSamples = s.fadeOutSamples) ∧
    ((VoiceState.renderCore F eL fL grRng s).2.isFadingOut = s.isFadingOut) ∧
    ((VoiceState.renderCore F eL fL grRng s).2.isActive = s.isActive) ∧
    ((VoiceState.renderCore F eL fL grRng s).2.currentNote = s.currentNote) ∧
    ((VoiceState.renderCore F eL fL grRng s).2.noteVelocity = s.noteVelocity) ∧
    ((VoiceState.renderCore F eL fL grRng s).2.wavetablePhase = s.wavetablePhase) ∧
    ((VoiceState.renderCore F eL fL grRng s).2.frequency = s.frequency) ∧
    ((VoiceState.renderCore F eL fL grRng s).2.sampleRate = s.sampleRate) := by
  obtain ⟨-, -, -, -, h5, h6, h7, h8, h9, h10, h11, h12, h13, h14, h15⟩ :=
    engineDispatch_proj F grRng
      ((((s.osc1.setFrequency (s.frequency * F.pow2 (s.params.osc1Octave +
          s.params.osc1Semi / 12 + s.params.osc1Fine / 1200))).processSample F).1 *
            s.params.osc1Mix +
        (((s.osc2.setFrequency (s.frequency * F.pow2 (s.params.osc2Octave +
          s.params.osc2Semi / 12 + s.params.osc2Fine / 1200))).processSample F).1 *
            s.params.osc2Mix)))
      { s with
        osc1 := ((s.osc1.setFrequency (s.frequency * F.pow2 (s.params.osc1Octave +
          s.params.osc1Semi / 12 + s.params.osc1Fine / 1200))).processSample F).2
        osc2 := ((s.osc2.setFrequency (s.frequency * F.pow2 (s.params.osc2Octave +
          s.params.osc2Semi / 12 + s.params.osc2Fine / 1200))).processSample F).2 }
  simp only [VoiceState.renderCore]
  exact ⟨h5, h6, h7, h8, h9, h10, h11, h12, h13, h14, h15⟩

/-- Fade behaviour of the `applyFades` suffix on an arbitrary state. -/
theorem applyFades_fade (vals : ℚ × ℚ × ℚ) (s : VoiceState ε φ)
    (hEnv : ∀ e, eL.isActive e = true) :
    ((VoiceState.applyFades eL vals s).fadeInGain =
      if s.fadeInCounter < s.fadeInSamples
      then (s.fadeInCounter : ℚ) / (s.fadeInSamples : ℚ) else 1) ∧
    ((VoiceState.applyFades eL vals s).state.fadeInSamples = s.fadeInSamples) ∧
    ((VoiceState.applyFades eL vals s).state.fadeOutSamples = s.fadeOutSamples) ∧
    ((VoiceState.applyFades eL vals s).state.fadeInCounter =
      if s.fadeInCounter < s.fadeInSamples then s.fadeInCounter + 1 else s.fadeInCounter) ∧
    (s.isFadingOut = false →
      (VoiceState.applyFades eL vals s).fadeOutGain = 1 ∧
      (VoiceState.applyFades eL vals s).state.isFadingOut = false ∧
      (VoiceState.applyFades eL vals s).state.isActive = s.isActive ∧
      (VoiceState.applyFades eL vals s).cont = true ∧
      (VoiceState.applyFades eL vals s).contrib ≠ none ∧
      (VoiceState.applyFades eL vals s).state.fadeOutCounter = s.fadeOutCounter) ∧
    (s.isFadingOut = true →
      (VoiceState.applyFades eL vals s).fadeOutGain =
        1 - (s.fadeOutCounter : ℚ) / (s.fadeOutSamples : ℚ) ∧
      (VoiceState.applyFades eL vals s).state.fadeOutCounter = s.fadeOutCounter + 1 ∧
      (s.fadeOutSamples ≤ s.fadeOutCounter + 1 →
        (VoiceState.applyFades eL vals s).state.isActive = false ∧
        (VoiceState.applyFades eL vals s).state.isFadingOut = false ∧
        (VoiceState.applyFades eL vals s).contrib = none ∧
        (VoiceState.applyFades eL vals s).cont = false ∧
        (VoiceState.applyFades eL vals s).state.currentNote = none) ∧
      (s.fadeOutCounter + 1 < s.fadeOutSamples →
        (VoiceState.applyFades eL vals s).state.isActive = s.isActive ∧
        (VoiceState.applyFades eL vals s).state.isFadingOut = true ∧
        (VoiceState.applyFades eL vals s).cont = true ∧
        (VoiceState.applyFades eL vals s).contrib ≠ none)) := by
  cases hfo : s.isFadingOut with
  | false =>
    by_cases hfi : s.fadeInCounter < s.fadeInSamples <;>
      simp [VoiceState.applyFades, hfi, hfo, hEnv]
  | true =>
    rcases lt_or_le (s.fadeOutCounter + 1) s.fadeOutSamples with hfc | hfc
    · have hfc' : ¬ (s.fadeOutSamples ≤ s.fadeOutCounter + 1) := by omega
      by_cases hfi : s.fadeInCounter < s.fadeInSamples <;>
        simp [VoiceState.applyFades, hfi, hfo, hfc', hEnv]
    · by_cases hfi : s.fadeInCounter < s.fadeInSamples <;>
        simp [VoiceState.applyFades, hfi, hfo, hfc, hEnv]

/-- Fade behaviour of one render-loop iteration, for an envelope that
reports active: the fade-in gain ramps `fadeInCounter / fadeInSamples`
until the counter reaches `fadeInSamples` and is 1 afterwards; during a
fade-out the gain is `1 - fadeOutCounter / fadeOutSamples` and the voice
is cleared (no sample written, loop stopped) exactly when the
incremented counter reaches `fadeOutSamples`. -/
theorem renderSample_fade (s : VoiceState ε φ)
    (hEnv : ∀ e, eL.isActive e = true) :
    ((VoiceState.renderSample F eL fL grRng s).fadeInGain =
      if s.fadeInCounter < s.fadeInSamples
      then (s.fadeInCounter : ℚ) / (s.fadeInSamples : ℚ) else 1) ∧
    ((VoiceState.renderSample F eL fL grRng s).state.fadeInSamples = s.fadeInSamples) ∧
    ((VoiceState.renderSample F eL fL grRng s).state.fadeOutSamples = s.fadeOutSamples) ∧
    ((VoiceState.renderSample F eL fL grRng s).state.fadeInCounter =
      if s.fadeInCounter < s.fadeInSamples then s.fadeInCounter + 1 else s.fadeInCounter) ∧
    (s.isFadingOut = false →
      (VoiceState.renderSample F eL fL grRng s).fadeOutGain = 1 ∧
      (VoiceState.renderSample F eL fL grRng s).state.isFadingOut = false ∧
      (VoiceState.renderSample F eL fL grRng s).state.isActive = s.isActive ∧
      (VoiceState.renderSample F eL fL grRng s).cont = true ∧
      (VoiceState.renderSample F eL fL grRng s).contrib ≠ none ∧
      (VoiceState.renderSample F eL fL grRng s).state.fadeOutCounter = s.fadeOutCounter) ∧
    (s.isFadingOut = true →
      (VoiceState.renderSample F eL fL grRng s).fadeOutGain =
        1 - (s.fadeOutCounter : ℚ) / (s.fadeOutSamples : ℚ) ∧
      (VoiceState.renderSample F eL fL grRng s).state.fadeOutCounter = s.fadeOutCounter + 1 ∧
      (s.fadeOutSamples ≤ s.fadeOutCounter + 1 →
        (VoiceState.renderSample F eL fL grRng s).state.isActive = false ∧
        (VoiceState.renderSample F eL fL grRng s).state.isFadingOut = false ∧
        (VoiceState.renderSample F eL fL grRng s).contrib = none ∧
        (VoiceState.renderSample F eL fL grRng s).cont = false ∧
        (VoiceState.renderSample F eL fL grRng s).state.currentNote = none) ∧
      (s.fadeOutCounter + 1 < s.fadeOutSamples →
        (VoiceState.renderSample F eL fL grRng s).state.isActive = s.isActive ∧
        (VoiceState.renderSample F eL fL grRng s).state.isFadingOut = true ∧
        (VoiceState.renderSample F eL fL grRng s).cont = true ∧
        (VoiceState.renderSample F eL fL grRng s).contrib ≠ none)) := by
  obtain ⟨p1, p2, p3, p4, p5, p6, p7, -, -, -, -⟩ := renderCore_proj F eL fL grRng s
  have h := applyFades_fade eL ((VoiceState.renderCore F eL fL grRng s).1)
    ((VoiceState.renderCore F eL fL grRng s).2) hEnv
  rw [p1, p2, p3, p4, p5, p6] at h
  simpa only [VoiceState.renderSample] using h

/-- Invariant of the render loop while a fade-out is in progress: both
fade counters advance one per sample and the voice stays active, as long
as the fade-out counter has not completed. -/
theorem fadeIter (s' : VoiceState ε φ) (N M : ℕ)
    (hEnv : ∀ e, eL.isActive e = true) (hMN : M ≤ N)
    (h1 : s'.fadeInCounter = 0) (h2 : s'.fadeOutCounter = 0)
    (h3 : s'.isFadingOut = true) (h4 : s'.isActive = true)
    (h5 : s'.fadeInSamples = N) (h6 : s'.fadeOutSamples = M) :
    ∀ n, n < M →
      (((fun s => (VoiceState.renderSample F eL fL grRng s).state)^[n] s').fadeInCounter = n) ∧
      (((fun s => (VoiceState.renderSample F eL fL grRng s).state)^[n] s').fadeOutCounter = n) ∧
      (((fun s => (VoiceState.renderSample F eL fL grRng s).state)^[n] s').isFadingOut = true) ∧
      (((fun s => (VoiceState.renderSample F eL fL grRng s).state)^[n] s').isActive = true) ∧
      (((fun s => (VoiceState.renderSample F eL fL grRng s).state)^[n] s').fadeInSamples = N) ∧
      (((fun s => (VoiceState.renderSample F eL fL grRng s).state)^[n] s').fadeOutSamples = M) := by
  intro n
  induction n with
  | zero => intro _; simpa using ⟨h1, h2, h3, h4, h5, h6⟩
  | succ n ih =>
    intro hn
    have hn' : n < M := Nat.lt_of_succ_lt hn
    obtain ⟨i1, i2, i3, i4, i5, i6⟩ := ih hn'
    obtain ⟨f1, f2, f3, f4, f5, f6⟩ := renderSample_fade F eL fL grRng
      ((fun s => (VoiceState.renderSample F eL fL grRng s).state)^[n] s') hEnv
    obtain ⟨g1, g2, g3, g4⟩ := f6 i3
    have hlt : ((fun s => (VoiceState.renderSample F eL fL grRng s).state)^[n]
        s').fadeOutCounter + 1 <
        ((fun s => (VoiceState.renderSample F eL fL grRng s).state)^[n] s').fadeOutSamples := by
      rw [i2, i6]; omega
    obtain ⟨a1, a2, a3, a4⟩ := g4 hlt
    rw [Function.iterate_succ_apply']
    refine ⟨?_, ?_, ?_, ?_, ?_, ?_⟩
    · rw [f4, i1, i5]
      have hN : n < N := lt_of_lt_of_le hn' hMN
      simp [hN]
    · rw [g2, i2]
    · exact a2
    · rw [a1, i4]
    · rw [f2, i5]
    · rw [f3, i6]

end FadeLemmas

/-- **C8**: after `startNote` immediately followed by
`stopNote(allowTailOff=false)`: `startNote` always restarts the 10 ms
fade-in (counter 0, fade-out cancelled); the fade-in gain of every
rendered sample is the linear ramp `fadeInCounter/fadeInSamples`,
holding at 1 once the counter completes; `stopNote(false)` starts the
2 ms fade-out; while it runs, sample `n` is rendered with fade-in gain
`n/fadeInSamples` and fade-out gain `1 − n/fadeOutSamples`, whose
product always lies in `[0, 1]`; and the voice is deactivated (note
cleared, loop broken, no sample written) exactly at the sample where the
fade-out counter reaches `fadeOutSamples`. -/
theorem akane_C8_fade_boundaries {ε φ : Type} (F : RealFns) (eL : EnvLib ε)
    (fL : FilterLib φ) (ksRng grRng : ℕ → ℚ) (s0 : VoiceState ε φ) (note : ℕ) (vel : ℚ)
    (hEnv : ∀ e, eL.isActive e = true)
    (hM : 0 < ((s0.startNote F eL ksRng note vel).stopNote eL false).fadeOutSamples)
    (hMN : ((s0.startNote F eL ksRng note vel).stopNote eL false).fadeOutSamples ≤
      ((s0.startNote F eL ksRng note vel).stopNote eL false).fadeInSamples) :
    ((s0.startNote F eL ksRng note vel).fadeInCounter = 0 ∧
     (s0.startNote F eL ksRng note vel).isFadingOut = false ∧
     (s0.startNote F eL ksRng note vel).fadeInSamples =
       (ctrunc (s0.sampleRate * (1/100))).toNat) ∧
    (∀ s : VoiceState ε φ, (VoiceState.renderSample F eL fL grRng s).fadeInGain =
       if s.fadeInCounter < s.fadeInSamples
       then (s.fadeInCounter : ℚ) / (s.fadeInSamples : ℚ) else 1) ∧
    (((s0.startNote F eL ksRng note vel).stopNote eL false).fadeOutCounter = 0 ∧
     ((s0.startNote F eL ksRng note vel).stopNote eL false).isFadingOut = true ∧
     ((s0.startNote F eL ksRng note vel).stopNote eL false).fadeOutSamples =
       (ctrunc (s0.sampleRate * (2/1000))).toNat) ∧
    (∀ n, n < ((s0.startNote F eL ksRng note vel).stopNote eL false).fadeOutSamples →
      ((VoiceState.renderSample F eL fL grRng
          (fadeScenario F eL fL ksRng grRng s0 note vel n)).fadeInGain =
        (n : ℚ) / (((s0.startNote F eL ksRng note vel).stopNote eL
            false).fadeInSamples : ℚ)) ∧
      ((VoiceState.renderSample F eL fL grRng
          (fadeScenario F eL fL ksRng grRng s0 note vel n)).fadeOutGain =
        1 - (n : ℚ) / (((s0.startNote F eL ksRng note vel).stopNote eL
            false).fadeOutSamples : ℚ)) ∧
      (0 ≤ (VoiceState.renderSample F eL fL grRng
          (fadeScenario F eL fL ksRng grRng s0 note vel n)).fadeInGain *
        (VoiceState.renderSample F eL fL grRng
          (fadeScenario F eL fL ksRng grRng s0 note vel n)).fadeOutGain) ∧
      ((VoiceState.renderSample F eL fL grRng
          (fadeScenario F eL fL ksRng grRng s0 note vel n)).fadeInGain *
        (VoiceState.renderSample F eL fL grRng
          (fadeScenario F eL fL ksRng grRng s0 note vel n)).fadeOutGain ≤ 1) ∧
      (n + 1 < ((s0.startNote F eL ksRng note vel).stopNote eL false).fadeOutSamples →
        (VoiceState.renderSample F eL fL grRng
          (fadeScenario F eL fL ksRng grRng s0 note vel n)).state.isActive = true ∧
        (VoiceState.renderSample F eL fL grRng
          (fadeScenario F eL fL ksRng grRng s0 note vel n)).cont = true ∧
        (VoiceState.renderSample F eL fL grRng
          (fadeScenario F eL fL ksRng grRng s0 note vel n)).contrib ≠ none) ∧
      (n + 1 = ((s0.startNote F eL ksRng note vel).stopNote eL false).fadeOutSamples →
        (VoiceState.renderSample F eL fL grRng
          (fadeScenario F eL fL ksRng grRng s0 note vel n)).state.isActive = false ∧
        (VoiceState.renderSample F eL fL grRng
          (fadeScenario F eL fL ksRng grRng s0 note vel n)).state.isFadingOut = false ∧
        (VoiceState.renderSample F eL fL grRng
          (fadeScenario F eL fL ksRng grRng s0 note vel n)).cont = false ∧
        (VoiceState.renderSample F eL fL grRng
          (fadeScenario F eL fL ksRng grRng s0 note vel n)).contrib = none ∧
        (VoiceState.renderSample F eL fL grRng
          (fadeScenario F eL fL ksRng grRng s0 note vel n)).state.currentNote = none)) := by
  refine ⟨⟨rfl, rfl, rfl⟩, ?_, ⟨rfl, rfl, rfl⟩, ?_⟩
  · intro s
    exact (renderSample_fade F eL fL grRng s hEnv).1
  · intro n hn
    have hinv := fadeIter F eL fL grRng
      ((s0.startNote F eL ksRng note vel).stopNote eL false)
      ((s0.startNote F eL ksRng note vel).stopNote eL false).fadeInSamples
      ((s0.startNote F eL ksRng note vel).stopNote eL false).fadeOutSamples
      hEnv hMN rfl rfl rfl rfl rfl rfl n hn
    obtain ⟨i1, i2, i3, i4, i5, i6⟩ := hinv
    rw [show (fun s => (VoiceState.renderSample F eL fL grRng s).state)^[n]
        ((s0.startNote F eL ksRng note vel).stopNote eL false) =
        fadeScenario F eL fL ksRng grRng s0 note vel n from rfl] at i1 i2 i3 i4 i5 i6
    obtain ⟨f1, f2, f3, f4, f5, f6⟩ := renderSample_fade F eL fL grRng
      (fadeScenario F eL fL ksRng grRng s0 note vel n) hEnv
    obtain ⟨g1, g2, g3, g4⟩ := f6 i3
    have hN : n < ((s0.startNote F eL ksRng note vel).stopNote eL false).fadeInSamples :=
      lt_of_lt_of_le hn hMN
    have hgainIn : (VoiceState.renderSample F eL fL grRng
        (fadeScenario F eL fL ksRng grRng s0 note vel n)).fadeInGain =
        (n : ℚ) / (((s0.startNote F eL ksRng note vel).stopNote eL
          false).fadeInSamples : ℚ) := by
      rw [f1, i1, i5]
      simp [hN]
    have hgainOut : (VoiceState.renderSample F eL fL grRng
        (fadeScenario F eL fL ksRng grRng s0 note vel n)).fadeOutGain =
        1 - (n : ℚ) / (((s0.startNote F eL ksRng note vel).stopNote eL
          false).fadeOutSamples : ℚ) := by
      rw [g1, i2, i6]
    have hNpos : (0 : ℚ) <
        (((s0.startNote F eL ksRng note vel).stopNote eL false).fadeInSamples : ℚ) := by
      exact_mod_cast lt_of_lt_of_le hM hMN
    have hMpos : (0 : ℚ) <
        (((s0.startNote F eL ksRng note vel).stopNote eL false).fadeOutSamples : ℚ) := by
      exact_mod_cast hM
    have hInRange : 0 ≤ (VoiceState.renderSample F eL fL grRng
        (fadeScenario F eL fL ksRng grRng s0 note vel n)).fadeInGain ∧
        (VoiceState.renderSample F eL fL grRng
          (fadeScenario F eL fL ksRng grRng s0 note vel n)).fadeInGain ≤ 1 := by
      rw [hgainIn]
      constructor
      · positivity
      · rw [div_le_one hNpos]
        exact_mod_cast hN.le
    have hOutRange : 0 ≤ (VoiceState.renderSample F eL fL grRng
        (fadeScenario F eL fL ksRng grRng s0 note vel n)).fadeOutGain ∧
        (VoiceState.renderSample F eL fL grRng
          (fadeScenario F eL fL ksRng grRng s0 note vel n)).fadeOutGain ≤ 1 := by
      rw [hgainOut]
      constructor
      · have : (n : ℚ) / (((s0.startNote F eL ksRng note vel).stopNote eL
            false).fadeOutSamples : ℚ) ≤ 1 := by
          rw [div_le_one hMpos]
          exact_mod_cast hn.le
        linarith
      · have : 0 ≤ (n : ℚ) / (((s0.startNote F eL ksRng note vel).stopNote eL
            false).fadeOutSamples : ℚ) := by positivity
        linarith
    refine ⟨hgainIn, hgainOut, ?_, ?_, ?_, ?_⟩
    · exact mul_nonneg hInRange.1 hOutRange.1
    · exact mul_le_one₀ hInRange.2 hOutRange.1 hOutRange.2
    · intro hlt
      have hstep : (fadeScenario F eL fL ksRng grRng s0 note vel n).fadeOutCounter + 1 <
          (fadeScenario F eL fL ksRng grRng s0 note vel n).fadeOutSamples := by
        rw [i2, i6]; omega
      obtain ⟨a1, a2, a3, a4⟩ := g4 hstep
      exact ⟨by rw [a1, i4], a3, a4⟩
    · intro heq
      have hstep : (fadeScenario F eL fL ksRng grRng s0 note vel n).fadeOutSamples ≤
          (fadeScenario F eL fL ksRng grRng s0 note vel n).fadeOutCounter + 1 := by
        rw [i2, i6]; omega
      obtain ⟨b1, b2, b3, b4, b5⟩ := g3 hstep
      exact ⟨b1, b2, b4, b3, b5⟩

/-- Closed witness for `akane_C8_fade_boundaries` at 44100 Hz
(fade-in 441 samples, fade-out 88 samples). -/
theorem akane_C8_witness :
    (∀ e : Unit, unitEnvLib.isActive e = true) ∧
    (0 < ((defaultVoice.startNote F0 unitEnvLib (fun _ => 0) 69 1).stopNote
        unitEnvLib false).fadeOutSamples) ∧
    (((defaultVoice.startNote F0 unitEnvLib (fun _ => 0) 69 1).stopNote
        unitEnvLib false).fadeOutSamples ≤
      ((defaultVoice.startNote F0 unitEnvLib (fun _ => 0) 69 1).stopNote
        unitEnvLib false).fadeInSamples) ∧
    ((defaultVoice.startNote F0 unitEnvLib (fun _ => 0) 69 1).fadeInCounter = 0 ∧
     (defaultVoice.startNote F0 unitEnvLib (fun _ => 0) 69 1).isFadingOut = false ∧
     (defaultVoice.startNote F0 unitEnvLib (fun _ => 0) 69 1).fadeInSamples =
       (ctrunc (defaultVoice.sampleRate * (1/100))).toNat) := by
  have hfos : ((defaultVoice.startNote F0 unitEnvLib (fun _ => 0) 69 1).stopNote
      unitEnvLib false).fadeOutSamples = 88 := by
    show (ctrunc ((44100 : ℚ) * (2/1000))).toNat = 88
    have : ctrunc ((44100 : ℚ) * (2/1000)) = 88 := by
      rw [ctrunc, if_pos (by norm_num)]
      norm_num
    rw [this]
    rfl
  have hfis : ((defaultVoice.startNote F0 unitEnvLib (fun _ => 0) 69 1).stopNote
      unitEnvLib false).fadeInSamples = 441 := by
    show (ctrunc ((44100 : ℚ) * (1/100))).toNat = 441
    have : ctrunc ((44100 : ℚ) * (1/100)) = 441 := by
      rw [ctrunc, if_pos (by norm_num)]
      norm_num
    rw [this]
    rfl
  have hM : 0 < ((defaultVoice.startNote F0 unitEnvLib (fun _ => 0) 69 1).stopNote
      unitEnvLib false).fadeOutSamples := by rw [hfos]; norm_num
  have hMN : ((defaultVoice.startNote F0 unitEnvLib (fun _ => 0) 69 1).stopNote
      unitEnvLib false).fadeOutSamples ≤
      ((defaultVoice.startNote F0 unitEnvLib (fun _ => 0) 69 1).stopNote
        unitEnvLib false).fadeInSamples := by rw [hfos, hfis]; norm_num
  exact ⟨fun _ => rfl, hM, hMN,
    (akane_C8_fade_boundaries F0 unitEnvLib unitFilterLib (fun _ => 0) (fun _ => 0)
      defaultVoice 69 1 (fun _ => rfl) hM hMN).1⟩

/-- Reading any position of a list whose entries are bounded by `M ≥ 0`
(out-of-range reads default to 0). -/
theorem abs_getD_le (l : List ℚ) (M : ℚ) (hM : 0 ≤ M)
    (h : ∀ x ∈ l, |x| ≤ M) (i : ℕ) : |l.getD i 0| ≤ M := by
  rcases lt_or_le i l.length with hi | hi
  · rw [List.getD_eq_getElem _ _ hi]
    exact h _ (List.getElem_mem hi)
  · rw [List.getD_eq_default _ _ hi]
    simpa using hM

/-- One Karplus-Strong step on a delay line bounded by `M ≥ 0`: the
output is bounded by `M`, the line stays bounded by `M` (the peak
envelope is non-increasing), the length is preserved, the cursor
advances cyclically, untouched slots keep their values, and the freshly
written slot is bounded by `0.995 × M`. -/
theorem ksStep_bound (s : KSState) (M : ℚ) (hM : 0 ≤ M)
    (h : ∀ x ∈ s.delayLine, |x| ≤ M) :
    |s.getSample.1| ≤ M ∧
    (∀ x ∈ (ksStep s).delayLine, |x| ≤ M) ∧
    ((ksStep s).delayLine.length = s.delayLine.length) ∧
    ((ksStep s).writePos = (s.writePos + 1) % s.delayLine.length) ∧
    (∀ i, i ≠ s.writePos → (ksStep s).delayLine.getD i 0 = s.delayLine.getD i 0) ∧
    (s.writePos < s.delayLine.length →
      |(ksStep s).delayLine.getD s.writePos 0| ≤ (199/200) * M) := by
  have h1 := abs_getD_le s.delayLine M hM h s.writePos
  have h2 := abs_getD_le s.delayLine M hM h
    ((s.writePos + s.delayLine.length - 1) % s.delayLine.length)
  have havg : |(s.delayLine.getD s.writePos 0 +
      s.delayLine.getD ((s.writePos + s.delayLine.length - 1) %
        s.delayLine.length) 0) * (1/2) * (199/200)| ≤ (199/200) * M := by
    rw [abs_mul, abs_mul]
    have hab : |s.delayLine.getD s.writePos 0 +
        s.delayLine.getD ((s.writePos + s.delayLine.length - 1) %
          s.delayLine.length) 0| ≤ 2 * M :=
      (abs_add _ _).trans (by linarith)
    have e1 : |(1 : ℚ)/2| = 1/2 := by norm_num
    have e2 : |(199 : ℚ)/200| = 199/200 := by norm_num
    rw [e1, e2]
    nlinarith [abs_nonneg (s.delayLine.getD s.writePos 0 +
      s.delayLine.getD ((s.writePos + s.delayLine.length - 1) %
        s.delayLine.length) 0)]
  refine ⟨?_, ?_, ?_, ?_, ?_, ?_⟩
  · show |s.delayLine.getD s.writePos 0| ≤ M
    exact h1
  · intro x hx
    rcases List.mem_or_eq_of_mem_set hx with hmem | heq
    · exact h x hmem
    · rw [heq]
      calc |(s.delayLine.getD s.writePos 0 +
            s.delayLine.getD ((s.writePos + s.delayLine.length - 1) %
              s.delayLine.length) 0) * (1/2) * (199/200)| ≤ (199/200) * M := havg
        _ ≤ M := by linarith
  · simp [ksStep, KSState.getSample]
  · rfl
  · intro i hi
    show (s.delayLine.set s.writePos _).getD i 0 = s.delayLine.getD i 0
    rw [List.getD_eq_getElem?_getD, List.getElem?_set_ne (by omega)]
    exact (List.getD_eq_getElem?_getD _ _ _).symm
  · intro hwp
    show |(s.delayLine.set s.writePos _).getD s.writePos 0| ≤ (199/200) * M
    rw [List.getD_eq_getElem?_getD, List.getElem?_set_self hwp]
    simpa using havg

/-- Bounds persist along any number of Karplus-Strong steps, and the
line length never changes. -/
theorem ksMany_bound (M : ℚ) (hM : 0 ≤ M) :
    ∀ (m : ℕ) (s : KSState), (∀ x ∈ s.delayLine, |x| ≤ M) →
      (∀ x ∈ (ksStep^[m] s).delayLine, |x| ≤ M) ∧
      ((ksStep^[m] s).delayLine.length = s.delayLine.length) := by
  intro m
  induction m with
  | zero => intro s h; exact ⟨h, rfl⟩
  | succ m ih =>
    intro s h
    obtain ⟨hb, hl⟩ := ih s h
    obtain ⟨-, hb', hl', -, -, -⟩ := ksStep_bound (ksStep^[m] s) M hM hb
    rw [Function.iterate_succ_apply']
    exact ⟨hb', by rw [hl', hl]⟩

/-- After `j ≤ L` steps starting with the cursor at 0, the first `j`
slots have been rewritten and are bounded by `0.995 × M`. -/
theorem ksPass_aux (M : ℚ) (hM : 0 ≤ M) :
    ∀ (j : ℕ) (s : KSState), s.writePos = 0 → (∀ x ∈ s.delayLine, |x| ≤ M) →
      j ≤ s.delayLine.length →
      ((ksStep^[j] s).delayLine.length = s.delayLine.length) ∧
      ((ksStep^[j] s).writePos = j % s.delayLine.length) ∧
      (∀ x ∈ (ksStep^[j] s).delayLine, |x| ≤ M) ∧
      (∀ i, i < j → |(ksStep^[j] s).delayLine.getD i 0| ≤ (199/200) * M) := by
  intro j
  induction j with
  | zero =>
    intro s hwp hb _
    refine ⟨rfl, ?_, ?_, ?_⟩
    · simpa using hwp
    · simpa using hb
    · intro i hi
      exact absurd hi (Nat.not_lt_zero i)
  | succ j ih =>
    intro s hwp hb hj
    have hj' : j ≤ s.delayLine.length := Nat.le_of_succ_le hj
    obtain ⟨l1, w1, b1, p1⟩ := ih s hwp hb hj'
    have hjlt : j < s.delayLine.length := hj
    have hwpj : (ksStep^[j] s).writePos = j := by
      rw [w1, Nat.mod_eq_of_lt hjlt]
    obtain ⟨-, sb, sl, sw, sne, sset⟩ := ksStep_bound (ksStep^[j] s) M hM b1
    rw [Function.iterate_succ_apply']
    refine ⟨by rw [sl, l1], ?_, sb, ?_⟩
    · rw [sw, hwpj, l1]
    · intro i hi
      rcases Nat.lt_or_ge i j with hij | hij
      · rw [sne i (by omega)]
        exact p1 i hij
      · have hieq : i = j := by omega
        subst hieq
        have := sset (by rw [hwpj, l1]; exact hjlt)
        rwa [hwpj] at this

/-- A full pass (L consecutive steps from cursor 0) contracts the peak
envelope by the damping factor 0.995. -/
theorem ksPass (s : KSState) (M : ℚ) (hM : 0 ≤ M)
    (hwp : s.writePos = 0) (hb : ∀ x ∈ s.delayLine, |x| ≤ M) :
    ((ksStep^[s.delayLine.length] s).delayLine.length = s.delayLine.length) ∧
    ((ksStep^[s.delayLine.length] s).writePos = 0) ∧
    (∀ x ∈ (ksStep^[s.delayLine.length] s).delayLine, |x| ≤ (199/200) * M) := by
  obtain ⟨l1, w1, -, p1⟩ := ksPass_aux M hM s.delayLine.length s hwp hb le_rfl
  refine ⟨l1, by simpa using w1, ?_⟩
  intro x hx
  obtain ⟨i, hi, hget⟩ := List.mem_iff_getElem.mp hx
  have hilt : i < s.delayLine.length := by rwa [l1] at hi
  have := p1 i hilt
  rwa [List.getD_eq_getElem _ _ hi, hget] at this

/-- `k` full passes contract the peak envelope by `0.995 ^ k`. -/
theorem ksGeom (M : ℚ) (hM : 0 ≤ M) :
    ∀ (k : ℕ) (s : KSState), s.writePos = 0 → (∀ x ∈ s.delayLine, |x| ≤ M) →
      ((ksStep^[k * s.delayLine.length] s).delayLine.length = s.delayLine.length) ∧
      ((ksStep^[k * s.delayLine.length] s).writePos = 0) ∧
      (∀ x ∈ (ksStep^[k * s.delayLine.length] s).delayLine,
        |x| ≤ (199/200)^k * M) := by
  intro k
  induction k with
  | zero =>
    intro s hwp hb
    refine ⟨by simp, by simpa using hwp, by simpa using hb⟩
  | succ k ih =>
    intro s hwp hb
    obtain ⟨l1, w1, b1⟩ := ih s hwp hb
    have hMk : (0:ℚ) ≤ (199/200)^k * M := by positivity
    obtain ⟨l2, w2, b2⟩ := ksPass (ksStep^[k * s.delayLine.length] s)
      ((199/200)^k * M) hMk w1 b1
    have hcount : (k + 1) * s.delayLine.length =
        (ksStep^[k * s.delayLine.length] s).delayLine.length +
          k * s.delayLine.length := by
      rw [l1]; ring
    rw [hcount, Function.iterate_add_apply]
    refine ⟨by rw [l2, l1], w2, ?_⟩
    intro x hx
    have := b2 x hx
    calc |x| ≤ (199/200) * ((199/200)^k * M) := this
      _ = (199/200)^(k+1) * M := by ring

/-- Every output sample of the Karplus-Strong loop decays geometrically:
starting from cursor 0 with peak bound `M`, the `n`-th output is bounded
by `0.995 ^ (n / L) × M`. -/
theorem ksOut_bound (s : KSState) (M : ℚ) (n : ℕ) (hM : 0 ≤ M)
    (hwp : s.writePos = 0) (hb : ∀ x ∈ s.delayLine, |x| ≤ M) :
    |ksOut s n| ≤ (199/200)^(n / s.delayLine.length) * M := by
  obtain ⟨l1, w1, b1⟩ := ksGeom M hM (n / s.delayLine.length) s hwp hb
  have hMk : (0:ℚ) ≤ (199/200)^(n / s.delayLine.length) * M := by positivity
  obtain ⟨b2, -⟩ := ksMany_bound ((199/200)^(n / s.delayLine.length) * M) hMk
    (n % s.delayLine.length) (ksStep^[n / s.delayLine.length * s.delayLine.length] s) b1
  have hsplit : n = n % s.delayLine.length +
      n / s.delayLine.length * s.delayLine.length := by
    rw [Nat.mod_add_div']
  have hiter : ksStep^[n] s = ksStep^[n % s.delayLine.length]
      (ksStep^[n / s.delayLine.length * s.delayLine.length] s) := by
    conv_lhs => rw [hsplit]
    rw [Function.iterate_add_apply]
  rw [ksOut, hiter]
  exact (ksStep_bound _ _ hMk b2).1

/-- Overwriting a slot of a constant list with the same constant is a
no-op. -/
theorem set_replicate_self (n i : ℕ) (c : ℚ) :
    (List.replicate n c).set i c = List.replicate n c := by
  apply List.ext_getElem?
  intro j
  rw [List.getElem?_set]
  by_cases hij : i = j
  · subst hij
    by_cases hin : i < n
    · simp [List.getElem?_replicate, hin]
    · simp [List.getElem?_replicate, hin]
  · simp [hij]

/-- One `getSampleD 1` step (unit damping, spec-modelled) on a constant
delay line: the line is unchanged and the output is the constant. -/
theorem ksConstStep (s : KSState) (c : ℚ)
    (hline : s.delayLine = List.replicate s.delayLine.length c)
    (hwp : s.writePos < s.delayLine.length) :
    ((s.getSampleD 1).1 = c) ∧
    ((s.getSampleD 1).2.delayLine = s.delayLine) ∧
    ((s.getSampleD 1).2.writePos = (s.writePos + 1) % s.delayLine.length) := by
  have hget : ∀ i, i < s.delayLine.length → s.delayLine.getD i 0 = c := by
    intro i hi
    rw [List.getD_eq_getElem?_getD, hline]
    simp [List.getElem?_replicate, hi]
  have hprev : (s.writePos + s.delayLine.length - 1) % s.delayLine.length <
      s.delayLine.length := Nat.mod_lt _ (by omega)
  have havg : (s.delayLine.getD s.writePos 0 +
      s.delayLine.getD ((s.writePos + s.delayLine.length - 1) %
        s.delayLine.length) 0) * (1/2) * 1 = c := by
    rw [hget _ hwp, hget _ hprev]
    ring
  refine ⟨?_, ?_, rfl⟩
  · show s.delayLine.getD s.writePos 0 = c
    exact hget _ hwp
  · show s.delayLine.set s.writePos _ = s.delayLine
    rw [havg]
    conv_lhs => rw [hline]
    conv_rhs => rw [hline]
    exact set_replicate_self _ _ _

/-- **C9** (counterexample).  The delay line `[0, 1]` (reached via
`setFrequency` then `trigger` against the stream `rng9`) has its noise
burst in samples 0–1, yet the sliding-window mean square (window = delay
length 2) strictly increases from the window at samples 4–5 to the
window at samples 5–6: the RMS envelope of `getSample()` outputs is not
non-increasing after the initial noise burst. -/
theorem akane_C9_rms_not_monotone :
    (s9.delayLine = [0, 1]) ∧
    ((ksOut s9 4)^2 + (ksOut s9 5)^2) / 2 <
      ((ksOut s9 5)^2 + (ksOut s9 6)^2) / 2 := by
  have hct : ctrunc ((1:ℚ)/1) = 1 := by
    rw [ctrunc, if_pos (by norm_num)]
    norm_num
  have hs9 : s9 = ksT0 := by
    simp only [s9, KSState.setFrequency, KSState.trigger, vecResize, hct, rng9, ksT0]
    norm_num [KSState.mk.injEq, List.range_succ]
  have h1 : ksStep ksT0 = ksT1 := by
    simp [ksStep, KSState.getSample, KSState.mk.injEq, ksT0, ksT1]
    norm_num
  have h2 : ksStep ksT1 = ksT2 := by
    simp [ksStep, KSState.getSample, KSState.mk.injEq, ksT1, ksT2]
    norm_num
  have h3 : ksStep ksT2 = ksT3 := by
    simp [ksStep, KSState.getSample, KSState.mk.injEq, ksT2, ksT3]
    norm_num
  have h4 : ksStep ksT3 = ksT4 := by
    simp [ksStep, KSState.getSample, KSState.mk.injEq, ksT3, ksT4]
    norm_num
  have h5 : ksStep ksT4 = ksT5 := by
    simp [ksStep, KSState.getSample, KSState.mk.injEq, ksT4, ksT5]
    norm_num
  have h6 : ksStep ksT5 = ksT6 := by
    simp [ksStep, KSState.getSample, KSState.mk.injEq, ksT5, ksT6]
    norm_num
  have i1 : ksStep^[1] s9 = ksT1 := by
    rw [Function.iterate_one, hs9, h1]
  have i2 : ksStep^[2] s9 = ksT2 := by
    rw [show (2:ℕ) = 1 + 1 from rfl, Function.iterate_succ_apply', i1, h2]
  have i3 : ksStep^[3] s9 = ksT3 := by
    rw [show (3:ℕ) = 2 + 1 from rfl, Function.iterate_succ_apply', i2, h3]
  have i4 : ksStep^[4] s9 = ksT4 := by
    rw [show (4:ℕ) = 3 + 1 from rfl, Function.iterate_succ_apply', i3, h4]
  have i5 : ksStep^[5] s9 = ksT5 := by
    rw [show (5:ℕ) = 4 + 1 from rfl, Function.iterate_succ_apply', i4, h5]
  have i6 : ksStep^[6] s9 = ksT6 := by
    rw [show (6:ℕ) = 5 + 1 from rfl, Function.iterate_succ_apply', i5, h6]
  have o4 : ksOut s9 4 = 39561399/64000000 := by
    rw [ksOut, i4]
    simp [KSState.getSample, ksT4]
  have o5 : ksOut s9 5 = 17361118001/25600000000 := by
    rw [ksOut, i5]
    simp [KSState.getSample, ksT5]
  have o6 : ksOut s9 6 = 6603949842599/10240000000000 := by
    rw [ksOut, i6]
    simp [KSState.getSample, ksT6]
  constructor
  · rw [hs9]
    rfl
  · rw [o4, o5, o6]
    norm_num

/-- **C9** (amended): the damping constant in `getSample` is the fixed
0.995 (there is no damping parameter in the code).  The *peak* envelope
of the delay line is non-increasing at every `getSample` call and every
output is bounded by it; each full pass of the delay line contracts the
peak by ≤ 0.995, so the `n`-th output is bounded by
`0.995^(n / L) × peak`; since `trigger` with velocity ≤ 1 seeds a peak
≤ 1, every output satisfies `|sample| < 1e-4` once `n / L ≥ 1946`
(≈ `9.22 / (1 − damping)` passes, i.e. a sample count proportional to
`1/(1−damping)`).  With damping set to 1.0 (spec-modelled
`getSampleD 1`; no code counterpart) a constant delay line reproduces
itself forever: the signal never decays. -/
theorem akane_C9_decay :
    (∀ s : KSState, s.getSample = s.getSampleD (199/200)) ∧
    (∀ (s : KSState) (M : ℚ), 0 ≤ M → (∀ x ∈ s.delayLine, |x| ≤ M) →
      |s.getSample.1| ≤ M ∧ ∀ x ∈ (ksStep s).delayLine, |x| ≤ M) ∧
    (∀ (s : KSState) (M : ℚ), 0 ≤ M → s.writePos = 0 →
      (∀ x ∈ s.delayLine, |x| ≤ M) →
      ∀ x ∈ (ksStep^[s.delayLine.length] s).delayLine, |x| ≤ (199/200) * M) ∧
    (∀ (s : KSState) (M : ℚ) (n : ℕ), 0 ≤ M → s.writePos = 0 →
      (∀ x ∈ s.delayLine, |x| ≤ M) →
      |ksOut s n| ≤ (199/200)^(n / s.delayLine.length) * M) ∧
    (∀ (s : KSState) (n : ℕ), s.writePos = 0 →
      (∀ x ∈ s.delayLine, |x| ≤ 1) → 1946 ≤ n / s.delayLine.length →
      |ksOut s n| < 1/10000) ∧
    (∀ (rng : ℕ → ℚ) (s : KSState) (v : ℚ),
      (∀ i, 0 ≤ rng i ∧ rng i ≤ 1) → |v| ≤ 1 →
      ∀ x ∈ (s.trigger rng v).delayLine, |x| ≤ 1) ∧
    (∀ (s : KSState) (c : ℚ) (k : ℕ),
      s.delayLine = List.replicate s.delayLine.length c →
      s.writePos < s.delayLine.length →
      (((fun st => (st.getSampleD 1).2)^[k] s).delayLine = s.delayLine) ∧
      ((((fun st => (st.getSampleD 1).2)^[k] s).getSampleD 1).1 = c)) := by
  refine ⟨fun s => rfl, ?_, ?_, ?_, ?_, ?_, ?_⟩
  · intro s M hM hb
    obtain ⟨h1, h2, -, -, -, -⟩ := ksStep_bound s M hM hb
    exact ⟨h1, h2⟩
  · intro s M hM hwp hb
    exact (ksPass s M hM hwp hb).2.2
  · intro s M n hM hwp hb
    exact ksOut_bound s M n hM hwp hb
  · intro s n hwp hb hn
    have hbound := ksOut_bound s 1 n (by norm_num) hwp hb
    have hmono : ((199:ℚ)/200)^(n / s.delayLine.length) ≤ (199/200)^1946 :=
      pow_le_pow_of_le_one (by norm_num) (by norm_num) hn
    have h139 : ((199:ℚ)/200)^139 ≤ 1/2 := by norm_num
    have hsplit : ((199:ℚ)/200)^1946 = (((199:ℚ)/200)^139)^14 := by
      rw [← pow_mul]
    have h14 : (((199:ℚ)/200)^139)^14 ≤ (1/2 : ℚ)^14 :=
      pow_le_pow_left₀ (by positivity) h139 14
    have hfinal : ((199:ℚ)/200)^1946 < 1/10000 := by
      rw [hsplit]
      calc (((199:ℚ)/200)^139)^14 ≤ (1/2 : ℚ)^14 := h14
        _ < 1/10000 := by norm_num
    calc |ksOut s n| ≤ (199/200)^(n / s.delayLine.length) * 1 := hbound
      _ = (199/200)^(n / s.delayLine.length) := by ring
      _ ≤ (199/200)^1946 := hmono
      _ < 1/10000 := hfinal
  · intro rng s v hr hv x hx
    simp only [KSState.trigger, List.mem_map, List.mem_range] at hx
    obtain ⟨i, -, hxe⟩ := hx
    rw [← hxe, abs_mul]
    have h1 : |rng (s.rngIdx + i) * 2 - 1| ≤ 1 := by
      obtain ⟨ha, hb2⟩ := hr (s.rngIdx + i)
      rw [abs_le]
      constructor <;> linarith
    calc |rng (s.rngIdx + i) * 2 - 1| * |v| ≤ 1 * 1 :=
        mul_le_mul h1 hv (abs_nonneg v) (by norm_num)
      _ = 1 := by ring
  · intro s c k hline hwp
    have key : ∀ (k : ℕ),
        (((fun st => (st.getSampleD 1).2)^[k] s).delayLine = s.delayLine) ∧
        (((fun st => (st.getSampleD 1).2)^[k] s).writePos < s.delayLine.length) := by
      intro k
      induction k with
      | zero => exact ⟨rfl, hwp⟩
      | succ k ih =>
        obtain ⟨ihl, ihw⟩ := ih
        have hline' : ((fun st => (st.getSampleD 1).2)^[k] s).delayLine =
            List.replicate (((fun st => (st.getSampleD 1).2)^[k]
              s).delayLine).length c := by
          rw [ihl]
          exact hline
        obtain ⟨-, hstep, hwp'⟩ := ksConstStep _ c hline' (by rw [ihl]; exact ihw)
        rw [Function.iterate_succ_apply']
        refine ⟨by rw [hstep, ihl], ?_⟩
        rw [hwp', ihl]
        exact Nat.mod_lt _ (by omega)
    obtain ⟨hl, hw⟩ := key k
    refine ⟨hl, ?_⟩
    have hline' : ((fun st => (st.getSampleD 1).2)^[k] s).delayLine =
        List.replicate (((fun st => (st.getSampleD 1).2)^[k]
          s).delayLine).length c := by
      rw [hl]
      exact hline
    exact (ksConstStep _ c hline' (by rw [hl]; exact hw)).1

/-- Closed witness for `akane_C9_decay`: its geometric-decay component
applied to the concrete state `s9` (delay line `[0, 1]`, peak 1) at
sample 10. -/
theorem akane_C9_witness :
    ((0:ℚ) ≤ 1) ∧ (s9.writePos = 0) ∧ (∀ x ∈ s9.delayLine, |x| ≤ 1) ∧
    |ksOut s9 10| ≤ (199/200)^(10 / s9.delayLine.length) * 1 := by
  have hwp : s9.writePos = 0 := rfl
  have hline : s9.delayLine = [0, 1] := by
    have hct : ctrunc ((1:ℚ)/1) = 1 := by
      rw [ctrunc, if_pos (by norm_num)]
      norm_num
    simp only [s9, KSState.setFrequency, KSState.trigger, vecResize, hct, rng9]
    norm_num [List.range_succ]
  have hb : ∀ x ∈ s9.delayLine, |x| ≤ 1 := by
    intro x hx
    rw [hline] at hx
    rcases List.mem_cons.mp hx with h | h
    · rw [h]; norm_num
    · rcases List.mem_cons.mp h with h' | h'
      · rw [h']; norm_num
      · exact absurd h' (List.not_mem_nil x)
  exact ⟨by norm_num, hwp, hb,
    (akane_C9_decay.2.2.2.1) s9 1 10 (by norm_num) hwp hb⟩

end Akane
